import Mathlib

/-!
Verification development for the `radiation-map` repository
(`src/radiation-map/main.py`, `config.py`, `constants.py`).

The Python application is shallowly embedded: the SQLite database is a record
of tables (lists of rows), JSON payloads from the Safecast API are an
inductive `JVal`, and each route / helper of `main.py` becomes a Lean
function on the database state.  SQLite-specific semantics that the claims
depend on are modelled explicitly:

* `INSERT OR IGNORE` against the `UNIQUE(device_urn, when_captured, lnd_7318u)`
  constraint of `measurements`;
* the storage of Python `datetime` parameters as TEXT (the default sqlite3
  adapter renders `str(dt)`, i.e. the ISO form with a space separator);
* `CAST(? AS TIMESTAMP)`: the declared type TIMESTAMP has NUMERIC affinity,
  so the cast of an ISO text yields the INTEGER given by its longest leading
  numeric prefix (the year), and SQLite orders every INTEGER/REAL strictly
  below every TEXT value;
* closing a connection without `commit` rolls the open transaction back.

Database errors inside the per-device fetch transaction are modelled by a
failure oracle `fails : Nat → Bool` indexed over the write statements of the
transaction, mirroring which `conn.execute` raises.
-/

namespace RadMap

instance [DecidableEq ε] [DecidableEq α] : DecidableEq (Except ε α) := fun a b =>
  match a, b with
  | .ok x, .ok y => if h : x = y then isTrue (by rw [h]) else isFalse (by simp [h])
  | .error x, .error y => if h : x = y then isTrue (by rw [h]) else isFalse (by simp [h])
  | .ok _, .error _ => isFalse (by simp)
  | .error _, .ok _ => isFalse (by simp)

/-- JSON values as decoded by `response.json()` (Python `json` module). -/
inductive JVal where
  | num (q : ℚ)
  | str (s : String)
  | jbool (b : Bool)
  | null
  | arr (elems : List JVal)
  | obj (fields : List (String × JVal))

/-- Association lookup in a JSON object (Python dict access). -/
def jlookup : List (String × JVal) → String → Option JVal
  | [], _ => none
  | (k, v) :: rest, key => if k = key then some v else jlookup rest key

/-- `dict.get(key)`: `none` stands for Python `None`, which is returned both
when the key is absent and when the JSON value is `null` (decoded to `None`). -/
def pyGet (v : JVal) (k : String) : Option JVal :=
  match v with
  | .obj fs =>
    match jlookup fs k with
    | some .null => none
    | r => r
  | _ => none

/-- Python truthiness of a decoded JSON value. -/
def truthyJ : JVal → Bool
  | .num q => decide (q ≠ 0)
  | .str s => decide (s ≠ "")
  | .jbool b => b
  | .null => false
  | .arr xs => !xs.isEmpty
  | .obj fs => !fs.isEmpty

/-- Python truthiness of a possibly-`None` value. -/
def truthyO : Option JVal → Bool
  | none => false
  | some v => truthyJ v

/-- Value of a digit string, most significant first. -/
def digitsVal (cs : List Char) : Nat :=
  cs.foldl (fun a c => a * 10 + (c.toNat - 48)) 0

/-- Unsigned decimal literal: digits with an optional fractional part. -/
def parseUnsignedChars (cs : List Char) : Option ℚ :=
  let w := cs.takeWhile Char.isDigit
  match cs.drop w.length with
  | [] => if w.isEmpty then none else some (digitsVal w : ℚ)
  | '.' :: f =>
    if (!w.isEmpty || !f.isEmpty) && f.all Char.isDigit then
      some ((digitsVal w : ℚ) + (digitsVal f : ℚ) / (10 : ℚ) ^ f.length)
    else none
  | _ => none

/-- Python `float(s)` on a plain decimal literal (optional sign, digits,
optional fractional part); `none` models the `ValueError` raised otherwise. -/
def parseFloatStr (s : String) : Option ℚ :=
  match s.toList with
  | '-' :: rest => (parseUnsignedChars rest).map (fun q => -q)
  | '+' :: rest => parseUnsignedChars rest
  | cs => parseUnsignedChars cs

/-- Exception class raised by a failed conversion: `float` and
`datetime.fromisoformat` raise `ValueError` on bad strings, while applying
them to values of the wrong type raises `TypeError`/`AttributeError`
(caught by the generic `except Exception` handlers of `main.py`). -/
inductive ConvErr where
  | valueError
  | typeError
deriving DecidableEq

/-- Python `float(v)` on a decoded JSON value. -/
def pyFloat : JVal → Except ConvErr ℚ
  | .num q => .ok q
  | .jbool b => .ok (if b then 1 else 0)
  | .str s =>
    match parseFloatStr s with
    | some q => .ok q
    | none => .error .valueError
  | _ => .error .typeError

/-- Optional variant used by the history loop, where `ValueError`,
`TypeError` and any other exception all lead to `continue`. -/
def pyFloatO (v : JVal) : Option ℚ :=
  match pyFloat v with
  | .ok q => some q
  | .error _ => none

/-- UTC-offset tail of an ISO timestamp: empty or `±HH:MM`. -/
def isoOffsetOk (cs : List Char) : Bool :=
  match cs with
  | [] => true
  | [c, a, b, ':', x, y] =>
    (c = '+' || c = '-') && a.isDigit && b.isDigit && x.isDigit && y.isDigit
  | _ => false

/-- Tail after the seconds field: optional fractional seconds, then offset. -/
def isoTailOk (cs : List Char) : Bool :=
  match cs with
  | '.' :: rest =>
    let ds := rest.takeWhile Char.isDigit
    !ds.isEmpty && isoOffsetOk (rest.drop ds.length)
  | _ => isoOffsetOk cs

/-- `s.replace("Z", "+00:00")`. -/
def zReplaceChars : List Char → List Char
  | [] => []
  | 'Z' :: rest => '+' :: '0' :: '0' :: ':' :: '0' :: '0' :: zReplaceChars rest
  | c :: rest => c :: zReplaceChars rest

/-- `datetime.fromisoformat(s.replace("Z", "+00:00"))` followed by storage of
the resulting `datetime` through the sqlite3 default adapter, which renders
`str(dt)` (date and time separated by a space).  Returns the stored TEXT on
success and `none` when parsing raises `ValueError`. -/
def pyFromIso (s₀ : String) : Option String :=
  let cs := zReplaceChars s₀.toList
  let dig (i : Nat) : Bool := (cs[i]?.map Char.isDigit).getD false
  let ch (i : Nat) (c : Char) : Bool := cs[i]? == some c
  if dig 0 && dig 1 && dig 2 && dig 3 && ch 4 '-' && dig 5 && dig 6 && ch 7 '-' &&
      dig 8 && dig 9 && (ch 10 'T' || ch 10 ' ') && dig 11 && dig 12 && ch 13 ':' &&
      dig 14 && dig 15 && ch 16 ':' && dig 17 && dig 18 && isoTailOk (cs.drop 19)
  then some (String.mk (cs.take 10 ++ [' '] ++ cs.drop 11))
  else none

/-- Byte order on text (SQLite's BINARY collation: a memcmp of the UTF-8
encodings, which agrees with the lexicographic order of the code points). -/
def charListLt : List Char → List Char → Bool
  | [], [] => false
  | [], _ :: _ => true
  | _ :: _, [] => false
  | a :: as, b :: bs => if a < b then true else if b < a then false else charListLt as bs

def strLt (a b : String) : Bool := charListLt a.toList b.toList

def strLe (a b : String) : Bool := !(strLt b a)

/-- SQLite storage values relevant to the embedded queries. -/
inductive SVal where
  | int (i : Int)
  | real (q : ℚ)
  | text (s : String)
deriving DecidableEq

/-- SQLite comparison: every numeric value sorts strictly below every TEXT
value; numerics compare by value, TEXT compares by byte order (BINARY). -/
def svalLt : SVal → SVal → Bool
  | .int i, .int j => decide (i < j)
  | .int i, .real q => decide ((i : ℚ) < q)
  | .real q, .int j => decide (q < (j : ℚ))
  | .real p, .real q => decide (p < q)
  | .int _, .text _ => true
  | .real _, .text _ => true
  | .text _, .int _ => false
  | .text _, .real _ => false
  | .text x, .text y => strLt x y

def svalLe (a b : SVal) : Bool := !(svalLt b a)

/-- `CAST(s AS TIMESTAMP)`: TIMESTAMP has NUMERIC affinity, so the text is
converted to its longest leading numeric prefix (an INTEGER for the ISO
strings produced by `datetime.isoformat`, whose first non-digit is a dash);
a text with no numeric prefix casts to 0. -/
def castTimestamp (s : String) : SVal :=
  match s.toList with
  | '-' :: rest => .int (-(digitsVal (rest.takeWhile Char.isDigit) : Int))
  | cs => .int (digitsVal (cs.takeWhile Char.isDigit) : Int)

/-! ## Database schema (`init_db`, `main.py` lines 132-303)

Each table of `safecast_data.db` becomes a list of rows.  Columns never read
or written by the embedded operations (`device_sn`, the contact columns,
`last_updated`, `recorded_at` and the geolocation columns of
`transport_info`) are omitted. -/

/-- A row of `devices`.  `last_seen` holds the TEXT under which the bound
`datetime` parameter is stored. -/
structure DeviceRow where
  device_urn : String
  device_id : Int
  device_class : String
  dev_test : Bool
  dev_dashboard : String
  latitude : Option ℚ := none
  longitude : Option ℚ := none
  last_seen : Option String := none
  last_reading : Option ℚ := none
deriving DecidableEq

/-- A row of `measurements` (minus the autoincrement `id` and the
`recorded_at` default).  `when_captured` is the stored TEXT of the bound
`datetime`; `UNIQUE(device_urn, when_captured, lnd_7318u)` applies. -/
structure MeasurementRow where
  device_urn : String
  when_captured : String
  lnd_7318u : ℚ
  latitude : Option ℚ := none
  longitude : Option ℚ := none
  service_uploaded : Option String := none
  service_transport : Option String := none
deriving DecidableEq

/-- A row of `device_fetch_status`.  The timestamp columns are modelled as
epoch values; no embedded query compares them. -/
structure StatusRow where
  device_urn : String
  last_fetched : Option Int := none
  last_attempted : Option Int := none
  last_measurement_time : Option String := none
  fetch_status : String
  error_message : Option String := none
deriving DecidableEq

/-- A row of `transport_info` (only the columns the embedded code reads). -/
structure TransportRow where
  device_urn : String
  city : Option String := none
  country : Option String := none
deriving DecidableEq

/-- A row of `alert_thresholds`.  `last_alert_sent` is an epoch value; the
code round-trips it through `datetime.fromisoformat`, which is the identity
on what it stored. -/
structure AlertRow where
  device_urn : String
  threshold_cpm : Int
  alert_email : Option String := none
  alert_sms : Option String := none
  alert_enabled : Bool := false
  last_alert_sent : Option Int := none
  alert_cooldown_minutes : Int := 60
deriving DecidableEq

/-- A row of `deleted_devices`. -/
structure DeletedRow where
  device_urn : String
  deleted_at : Int
deriving DecidableEq

/-- The whole database. -/
structure DB where
  devices : List DeviceRow
  measurements : List MeasurementRow
  device_fetch_status : List StatusRow
  transport_info : List TransportRow
  alert_thresholds : List AlertRow
  deleted_devices : List DeletedRow
deriving DecidableEq

/-! ## Primary-key lookups and generic row updates -/

def deviceLookup (db : DB) (urn : String) : Option DeviceRow :=
  db.devices.find? (fun d => d.device_urn == urn)

def statusLookup (db : DB) (urn : String) : Option StatusRow :=
  db.device_fetch_status.find? (fun r => r.device_urn == urn)

def alertLookup (db : DB) (urn : String) : Option AlertRow :=
  db.alert_thresholds.find? (fun r => r.device_urn == urn)

def deletedUrns (db : DB) : List String :=
  db.deleted_devices.map (fun r => r.device_urn)

/-- `SELECT 1 FROM devices WHERE device_urn = ?` used as an existence test. -/
def deviceExists (db : DB) (urn : String) : Bool :=
  (deviceLookup db urn).isSome

/-! ## Constants (`constants.py`, `config.py`) -/

/-- `DEVICE_URNS` from `constants.py` (one entry is commented out there). -/
def DEVICE_URNS : List String :=
  ["geigiecast-zen:65049", "geigiecast-zen:65004", "geigiecast:63209"]

/-- `MAX_DATA_DAYS` from `config.py`. -/
def MAX_DATA_DAYS : Nat := 30

/-- Split on `:` (Python `str.split(':')`). -/
def splitColonChars : List Char → List (List Char)
  | [] => [[]]
  | ':' :: rest => [] :: splitColonChars rest
  | c :: rest =>
    match splitColonChars rest with
    | h :: t => (c :: h) :: t
    | [] => [[c]]

/-- `device_urn.split(':')[-1]`, converted with `int` when it `isdigit()`,
else 0 (`init_db` and `restore_device`). -/
def deviceIdOf (urn : String) : Int :=
  let p := (splitColonChars urn.toList).getLastD []
  if !p.isEmpty && p.all Char.isDigit then (digitsVal p : Int) else 0

/-- The `dev_dashboard` default built in `init_db` / `restore_device`. -/
def dashboardOf (deviceId : Int) : String :=
  "https://dashboard.radnote.org/d/cdq671mxg2cjka/radnote-overview?var-device=dev:"
    ++ toString deviceId

/-! ## INSERT statement semantics -/

/-- The key of the `UNIQUE(device_urn, when_captured, lnd_7318u)` constraint. -/
def sameKey (a b : MeasurementRow) : Prop :=
  a.device_urn = b.device_urn ∧ a.when_captured = b.when_captured ∧
    a.lnd_7318u = b.lnd_7318u

instance : DecidablePred fun p : MeasurementRow × MeasurementRow => sameKey p.1 p.2 :=
  fun _ => by unfold sameKey; infer_instance

instance (a b : MeasurementRow) : Decidable (sameKey a b) := by
  unfold sameKey; infer_instance

/-- `INSERT OR IGNORE INTO measurements ...`: the row is appended unless a
row with the same unique key is already present. -/
def insertOrIgnoreMeasurement (db : DB) (row : MeasurementRow) : DB :=
  if db.measurements.any (fun m => decide (sameKey m row)) then db
  else { db with measurements := db.measurements ++ [row] }

/-- `INSERT OR IGNORE INTO devices ...` (primary key `device_urn`). -/
def insertOrIgnoreDevice (db : DB) (row : DeviceRow) : DB :=
  if (deviceLookup db row.device_urn).isSome then db
  else { db with devices := db.devices ++ [row] }

/-- `INSERT OR IGNORE INTO device_fetch_status ...`. -/
def insertOrIgnoreStatus (db : DB) (row : StatusRow) : DB :=
  if (statusLookup db row.device_urn).isSome then db
  else { db with device_fetch_status := db.device_fetch_status ++ [row] }

/-- `INSERT OR REPLACE INTO device_fetch_status ...`: the conflicting row is
deleted and the new row inserted (columns not named become NULL). -/
def insertOrReplaceStatus (db : DB) (row : StatusRow) : DB :=
  { db with device_fetch_status :=
      db.device_fetch_status.filter (fun r => r.device_urn != row.device_urn) ++ [row] }

/-- `INSERT OR REPLACE INTO deleted_devices (device_urn, deleted_at)`. -/
def insertOrReplaceDeleted (db : DB) (urn : String) (now : Int) : DB :=
  { db with deleted_devices :=
      db.deleted_devices.filter (fun r => r.device_urn != urn) ++ [⟨urn, now⟩] }

/-! ## `init_db` (`main.py` lines 132-303)

Table creation is a no-op on the modelled state; the device seeding loop
skips every URN recorded in `deleted_devices`. -/

/-- One iteration of the device-seeding loop of `init_db`; `dels` is the set
of deleted URNs read before the loop. -/
def initStep (dels : List String) (d : DB) (urn : String) : DB :=
  if dels.contains urn then d
  else
    let did := deviceIdOf urn
    let d := insertOrIgnoreDevice d
      { device_urn := urn, device_id := did, device_class := "GeigerCounter",
        dev_test := false, dev_dashboard := dashboardOf did }
    insertOrIgnoreStatus d { device_urn := urn, fetch_status := "pending" }

def init_db (db : DB) : DB :=
  DEVICE_URNS.foldl (initStep (deletedUrns db)) db

/-! ## Admin endpoints (`main.py` lines 806-907) -/

/-- Request body of `POST /api/admin/devices`. -/
structure DeviceCreate where
  device_urn : String
  device_id : Int
  device_class : String := "GeigerCounter"
  dev_test : Bool := false

/-- `POST /api/admin/devices`: a plain `INSERT` that hits the primary key
raises `IntegrityError`, which the handler turns into a 400 after rollback. -/
def add_device (db : DB) (dc : DeviceCreate) : Except Nat DB :=
  if deviceExists db dc.device_urn then .error 400
  else
    let d := { db with devices := db.devices ++
      [{ device_urn := dc.device_urn, device_id := dc.device_id,
         device_class := dc.device_class, dev_test := dc.dev_test,
         dev_dashboard := dashboardOf dc.device_id }] }
    .ok (insertOrIgnoreStatus d { device_urn := dc.device_urn, fetch_status := "pending" })

/-- `DELETE /api/admin/devices/{device_urn}`: deletes the fetch-status row,
deletes the device (the 404 raised when it is absent is re-raised as a 400
after rollback, leaving the state untouched), records the URN in
`deleted_devices`, and commits everything together. -/
def remove_device (db : DB) (urn : String) (now : Int) : Except Nat DB :=
  if !deviceExists db urn then .error 400
  else
    let d := { db with
      device_fetch_status := db.device_fetch_status.filter (fun r => r.device_urn != urn),
      devices := db.devices.filter (fun r => r.device_urn != urn) }
    .ok (insertOrReplaceDeleted d urn now)

/-- `POST /api/admin/devices/restore/{device_urn}`: only commits when the URN
is both in `deleted_devices` and in `DEVICE_URNS`; the 400 branch raises
after the `DELETE FROM deleted_devices`, which closes the connection without
commit, rolling that delete back. -/
def restore_device (db : DB) (urn : String) : Except Nat DB :=
  if (db.deleted_devices.find? (fun r => r.device_urn == urn)).isNone then .error 404
  else if DEVICE_URNS.contains urn then
    let d := { db with deleted_devices :=
        db.deleted_devices.filter (fun r => r.device_urn != urn) }
    let did := deviceIdOf urn
    let d := insertOrIgnoreDevice d
      { device_urn := urn, device_id := did, device_class := "GeigerCounter",
        dev_test := false, dev_dashboard := dashboardOf did }
    .ok (insertOrIgnoreStatus d { device_urn := urn, fetch_status := "pending" })
  else .error 400

/-! ## `GET /api/fetch-device-data` (`main.py` lines 910-979)

The endpoint validates `DEVICE_URNS` against the `devices` table, marks each
validated device `fetching` (an `INSERT OR REPLACE` that nulls the other
columns), schedules one background task per validated device and commits
before any task runs.  The returned list is the scheduled task queue. -/

/-- The row written by the endpoint's
`INSERT OR REPLACE INTO device_fetch_status (device_urn, last_fetched,
fetch_status, error_message) VALUES (?, CURRENT_TIMESTAMP, 'fetching', NULL)`. -/
def fetchingStatusRow (u : String) (now : Int) : StatusRow :=
  { device_urn := u, last_fetched := some now, fetch_status := "fetching",
    error_message := none }

def fetch_device_data (db : DB) (now : Int) : DB × List String :=
  let devicesToFetch := DEVICE_URNS.filter (fun u => deviceExists db u)
  if devicesToFetch.isEmpty then (db, [])
  else
    (devicesToFetch.foldl (fun d u => insertOrReplaceStatus d (fetchingStatusRow u now)) db,
     devicesToFetch)

/-! ## Alerts (`check_and_trigger_alerts`, `main.py` lines 746-804) -/

/-- A notification task appended to `notification_tasks`. -/
inductive Dispatch where
  | email (addr : String)
  | sms (number : String)
deriving DecidableEq

/-- Python truthiness of a nullable TEXT column (`if alert_email:`). -/
def strTruthy : Option String → Bool
  | none => false
  | some s => decide (s ≠ "")

/-- The committed `UPDATE alert_thresholds SET last_alert_sent = ? WHERE
device_urn = ?`, performed before the notification tasks run. -/
def recordAlertSent (db : DB) (urn : String) (now : Int) : DB :=
  { db with alert_thresholds :=
      db.alert_thresholds.map (fun r =>
        if r.device_urn == urn then { r with last_alert_sent := some now } else r) }

/-- `check_and_trigger_alerts(device_urn, cpm_value)` at wall-clock `now`
(epoch seconds; the cooldown is `timedelta(minutes=alert_cooldown)`).
Returns the updated database and the list of notification tasks gathered. -/
def check_and_trigger_alerts (db : DB) (urn : String) (cpm : ℚ) (now : Int) :
    DB × List Dispatch :=
  match alertLookup db urn with
  | none => (db, [])
  | some cfg =>
    if !cfg.alert_enabled then (db, [])
    else if cpm ≤ (cfg.threshold_cpm : ℚ) then (db, [])
    else
      let inCooldown :=
        match cfg.last_alert_sent with
        | none => false
        | some t => decide (now - t < 60 * cfg.alert_cooldown_minutes)
      if inCooldown then (db, [])
      else
        let db := recordAlertSent db urn now
        let tasks :=
          (if strTruthy cfg.alert_email then [Dispatch.email (cfg.alert_email.getD "")] else [])
            ++ (if strTruthy cfg.alert_sms then [Dispatch.sms (cfg.alert_sms.getD "")] else [])
        (db, tasks)

/-! ## `GET /api/measurements/{device_urn}` (`main.py` lines 534-638) -/

/-- Insertion into a list sorted by `le`. -/
def sortedInsertBy (le : α → α → Bool) (x : α) : List α → List α
  | [] => [x]
  | y :: ys => if le x y then x :: y :: ys else y :: sortedInsertBy le x ys

/-- Insertion sort, modelling `ORDER BY`. -/
def insertionSortBy (le : α → α → Bool) (l : List α) : List α :=
  l.foldr (sortedInsertBy le) []

/-- `ORDER BY when_captured ASC` on the stored TEXT values. -/
def orderByWhenAsc (l : List MeasurementRow) : List MeasurementRow :=
  insertionSortBy (fun a b => svalLe (.text a.when_captured) (.text b.when_captured)) l

/-- `ORDER BY when_captured DESC`. -/
def orderByWhenDesc (l : List MeasurementRow) : List MeasurementRow :=
  insertionSortBy (fun a b => svalLe (.text b.when_captured) (.text a.when_captured)) l

/-- The endpoint body: 404 for an unknown device; otherwise the range query
`when_captured BETWEEN CAST(? AS TIMESTAMP) AND CAST(? AS TIMESTAMP)` with
`startIso = (now - days).isoformat()` and `endIso = now.isoformat()`,
falling back to the ten most recent rows when the range query is empty. -/
def get_measurements (db : DB) (urn : String) (startIso endIso : String) :
    Except Nat (List MeasurementRow) :=
  if !deviceExists db urn then .error 404
  else
    let inRange := db.measurements.filter (fun m =>
      m.device_urn == urn &&
      svalLe (castTimestamp startIso) (.text m.when_captured) &&
      svalLe (.text m.when_captured) (castTimestamp endIso))
    let rows := orderByWhenAsc inRange
    if rows.isEmpty then
      .ok ((orderByWhenDesc (db.measurements.filter (fun m => m.device_urn == urn))).take 10)
    else .ok rows

/-! ## `cleanup_old_data` (`main.py` lines 1260-1285) -/

/-- `cleanup_old_data` with
`cutoffIso = (datetime.utcnow() - timedelta(days=MAX_DATA_DAYS)).isoformat()`:
counts the rows with `when_captured < CAST(? AS TIMESTAMP)` and deletes them
when the count is positive. -/
def cleanup_old_data (db : DB) (cutoffIso : String) : DB :=
  let old := db.measurements.filter (fun m =>
    svalLt (.text m.when_captured) (castTimestamp cutoffIso))
  if old.length > 0 then
    { db with measurements := db.measurements.filter (fun m =>
        !svalLt (.text m.when_captured) (castTimestamp cutoffIso)) }
  else db

/-! ## `fetch_and_store_device_data` (`main.py` lines 981-1235)

The network interaction is summarised by a `FetchOutcome`; a successful HTTP
round trip carries the decoded JSON body and a failure oracle `fails`
telling which write statements of the storage transaction raise a database
error (`fails i` refers to the i-th write `conn.execute` of that
transaction, with the trailing index standing for `conn.commit()`). -/

/-- TEXT affinity applied to a bound parameter of the `service_*` columns
(numbers are stored as their text rendering, `None` as NULL). -/
def textAffinity : Option JVal → Option String
  | some (.str s) => some s
  | some (.num q) => some (toString q)
  | some (.jbool b) => some (if b then "1" else "0")
  | _ => none

/-- Whether sqlite3 can bind the value as a parameter; decoded JSON lists
and dicts raise `InterfaceError` at the `execute`. -/
def bindable : Option JVal → Bool
  | some (.arr _) => false
  | some (.obj _) => false
  | _ => true

/-- `when_captured` of a history entry: `.replace`/`fromisoformat` need a
string (anything else raises, and the loop skips the entry). -/
def isoOfEntryField : Option JVal → Option String
  | some (.str s) => pyFromIso s
  | _ => none

/-- `float(entry_lat) if entry_lat is not None else None`; a conversion
failure raises and skips the entry, hence the nested `Option`. -/
def convOptField : Option JVal → Option (Option ℚ)
  | none => some none
  | some v => (pyFloatO v).map some

/-- The validation performed by the `geiger_history` loop body on one entry
(`main.py` lines 1109-1147): non-dicts are skipped, falsy `when_captured` or
`lnd_7318u` are skipped, any conversion or binding failure is caught and the
entry skipped; otherwise the row bound by the `INSERT OR IGNORE` results. -/
def historyAccepted (urn : String) (e : JVal) : Option MeasurementRow :=
  match e with
  | .obj _ =>
    let wc := pyGet e "when_captured"
    let rd := pyGet e "lnd_7318u"
    if truthyO wc && truthyO rd then
      match (rd.getD .null) |> pyFloatO, isoOfEntryField wc,
          convOptField (pyGet e "loc_lat"), convOptField (pyGet e "loc_lon") with
      | some q, some ts, some laq, some loq =>
        if bindable (pyGet e "service_uploaded")
            && bindable (pyGet e "service_transport") then
          some { device_urn := urn, when_captured := ts, lnd_7318u := q,
                 latitude := laq, longitude := loq,
                 service_uploaded := textAffinity (pyGet e "service_uploaded"),
                 service_transport := textAffinity (pyGet e "service_transport") }
        else none
      | _, _, _, _ => none
    else none
  | _ => none

/-- The values of `current_values` after the conversions of lines 1047-1054
succeeded. -/
structure ParsedCV where
  lat : ℚ
  lon : ℚ
  reading : ℚ
  lastSeenText : String
  service_uploaded : Option String := none
  service_transport : Option String := none
deriving DecidableEq

/-- `fromisoformat` on the current reading's `when_captured` (a non-string
raises `AttributeError` at `.replace`, landing in the generic handler). -/
def isoConv : JVal → Except ConvErr String
  | .str s =>
    match pyFromIso s with
    | some t => .ok t
    | none => .error .valueError
  | _ => .error .typeError

/-- The conversions of the current reading.  An unbindable `service_*` value
would raise `InterfaceError` at the first INSERT inside the transaction and
roll it back; since the database is then also left unchanged and the same
`DB update error` message recorded, it is folded into the `typeError` case. -/
def convertCV (cvObj : JVal) (latO lonO radO capO : Option JVal) :
    Except ConvErr ParsedCV := do
  let lat ← pyFloat (latO.getD .null)
  let lon ← pyFloat (lonO.getD .null)
  let rad ← pyFloat (radO.getD .null)
  let ts ← isoConv (capO.getD .null)
  if bindable (pyGet cvObj "service_uploaded")
      && bindable (pyGet cvObj "service_transport") then
    pure { lat := lat, lon := lon, reading := rad, lastSeenText := ts,
           service_uploaded := textAffinity (pyGet cvObj "service_uploaded"),
           service_transport := textAffinity (pyGet cvObj "service_transport") }
  else .error .typeError

/-- The `UPDATE devices SET latitude, longitude, last_seen, last_reading`. -/
def updateDeviceRow (db : DB) (urn : String) (cv : ParsedCV) : DB :=
  { db with devices := db.devices.map (fun d =>
      if d.device_urn == urn then
        { d with latitude := some cv.lat, longitude := some cv.lon,
                 last_seen := some cv.lastSeenText, last_reading := some cv.reading }
      else d) }

/-- The row bound by the `INSERT OR IGNORE` for the current reading. -/
def currentMeasurementRow (urn : String) (cv : ParsedCV) : MeasurementRow :=
  { device_urn := urn, when_captured := cv.lastSeenText, lnd_7318u := cv.reading,
    latitude := some cv.lat, longitude := some cv.lon,
    service_uploaded := cv.service_uploaded,
    service_transport := cv.service_transport }

/-- `data.get('geiger_history', [])` followed by the
`if geiger_history and isinstance(geiger_history, list)` guard. -/
def historyEntriesOf (data : JVal) : List JVal :=
  let gh :=
    match data with
    | .obj fs => (jlookup fs "geiger_history").getD (.arr [])
    | _ => .arr []
  if truthyJ gh then
    match gh with
    | .arr es => es
    | _ => []
  else []

/-- The history loop inside the open transaction: each accepted entry costs
one `execute`; a database error on that `execute` is caught by the
`except Exception as entry_error: continue` and only skips the entry. -/
def historyLoop (urn : String) (entries : List JVal) (fails : Nat → Bool)
    (start : DB × Nat) : DB × Nat :=
  entries.foldl
    (fun acc e =>
      match historyAccepted urn e with
      | none => acc
      | some row =>
        if fails acc.2 then (acc.1, acc.2 + 1)
        else (insertOrIgnoreMeasurement acc.1 row, acc.2 + 1))
    start

/-- Result of the storage transaction (lines 1056-1159): either committed,
or rolled back by `conn.close()` after the raised error. -/
structure TxnResult where
  committed : Bool
  db : DB
  errMsg : Option String
deriving DecidableEq

/-- The single transaction of a successful parse: `UPDATE devices` (write 0),
`INSERT OR IGNORE` for the current reading (write 1), one insert per accepted
history entry (writes 2..), then `conn.commit()`.  An error on write 0,
write 1 or the commit propagates out of the `with get_db()` block, which
closes the connection without commit and rolls everything back; an error on
a history insert is swallowed by the loop. -/
def fetchTxn (db : DB) (urn : String) (cv : ParsedCV) (entries : List JVal)
    (fails : Nat → Bool) : TxnResult :=
  if fails 0 then ⟨false, db, some "DB update error"⟩
  else
    let d1 := updateDeviceRow db urn cv
    if fails 1 then ⟨false, db, some "DB update error"⟩
    else
      let d2 := insertOrIgnoreMeasurement d1 (currentMeasurementRow urn cv)
      let r := historyLoop urn entries fails (d2, 2)
      if fails r.2 then ⟨false, db, some "DB update error"⟩
      else ⟨true, r.1, none⟩

/-- `UPDATE device_fetch_status SET fetch_status='fetching',
last_attempted=?, error_message=NULL` (lines 1004-1008, committed). -/
def statusUpdateFetching (db : DB) (urn : String) (now : Int) : DB :=
  { db with device_fetch_status := db.device_fetch_status.map (fun r =>
      if r.device_urn == urn then
        { r with fetch_status := "fetching", last_attempted := some now,
                 error_message := none }
      else r) }

/-- The final status update (lines 1178-1195): `last_measurement_time` is
only included in the SET clause when the parse produced one. -/
def finalStatusUpdate (db : DB) (urn : String) (st : String) (err : Option String)
    (lastMeas : Option String) (now : Int) : DB :=
  { db with device_fetch_status := db.device_fetch_status.map (fun r =>
      if r.device_urn == urn then
        { r with fetch_status := st, last_fetched := some now, error_message := err,
                 last_measurement_time :=
                   if lastMeas.isSome then lastMeas else r.last_measurement_time }
      else r) }

/-- `error_message or "Interrupted"` (Python `or`: `None` and `""` both fall
through to the literal). -/
def orInterrupted : Option String → String
  | none => "Interrupted"
  | some m => if m = "" then "Interrupted" else m

/-- The `finally` block (lines 1218-1233): if the row is still `fetching`,
resolve it with the local `fetch_status`/`error_message` through the same
UPDATE shape as the final status update (without `last_measurement_time`). -/
def finallySafetyNet (db : DB) (urn : String) (st : String) (err : Option String)
    (now : Int) : DB :=
  match statusLookup db urn with
  | some r =>
    if r.fetch_status == "fetching" then
      finalStatusUpdate db urn st (some (orInterrupted err)) none now
    else db
  | none => db

/-- Abstraction of the HTTP round trip and JSON decode of one fetch. -/
inductive FetchOutcome where
  | httpStatusError (code : Nat)
  | requestError (excName : String)
  | jsonDecodeError
  | ok (data : JVal) (fails : Nat → Bool)

/-- `fetch_and_store_device_data(device_urn)` at wall-clock `now`. -/
def fetch_and_store_device_data (db : DB) (urn : String) (outcome : FetchOutcome)
    (now : Int) : DB :=
  if !deviceExists db urn then
    -- the UPDATE to 'error' of lines 997-1000 is never committed, so the
    -- connection close rolls it back; only the finally block acts.
    finallySafetyNet db urn "error" none now
  else
    let db := statusUpdateFetching db urn now
    match outcome with
    | .httpStatusError code =>
      finallySafetyNet db urn "error" (some ("HTTP error: " ++ toString code)) now
    | .requestError n =>
      finallySafetyNet db urn "error" (some ("Request error: " ++ n)) now
    | .jsonDecodeError =>
      finallySafetyNet db urn "error" (some "JSON decode error") now
    | .ok data fails =>
      match data with
      | .obj _ =>
        let cvO := pyGet data "current_values"
        if !truthyO cvO then
          let msg := some "No 'current_values' in API response."
          finallySafetyNet (finalStatusUpdate db urn "no_data" msg none now)
            urn "no_data" msg now
        else
          match cvO with
          | some cvObj@(.obj _) =>
            let latO := pyGet cvObj "loc_lat"
            let lonO := pyGet cvObj "loc_lon"
            let radO := pyGet cvObj "lnd_7318u"
            let capO := pyGet cvObj "when_captured"
            if latO.isSome && lonO.isSome && radO.isSome && truthyO capO then
              match convertCV cvObj latO lonO radO capO with
              | .error .valueError =>
                let msg := some "Data parsing error"
                finallySafetyNet (finalStatusUpdate db urn "error" msg none now)
                  urn "error" msg now
              | .error .typeError =>
                let msg := some "DB update error"
                finallySafetyNet (finalStatusUpdate db urn "error" msg none now)
                  urn "error" msg now
              | .ok cv =>
                let r := fetchTxn db urn cv (historyEntriesOf data) fails
                if r.committed then
                  finallySafetyNet
                    (finalStatusUpdate r.db urn "completed" none (some cv.lastSeenText) now)
                    urn "completed" none now
                else
                  finallySafetyNet
                    (finalStatusUpdate r.db urn "error" r.errMsg (some cv.lastSeenText) now)
                    urn "error" r.errMsg now
            else
              let missing :=
                (if latO.isNone then ["latitude"] else [])
                  ++ (if lonO.isNone then ["longitude"] else [])
                  ++ (if radO.isNone then ["radiation_value (lnd_7318u)"] else [])
                  ++ (if capO.isNone then ["when_captured"] else [])
              let msg := some ("Missing data in current_values: "
                ++ String.intercalate ", " missing)
              finallySafetyNet (finalStatusUpdate db urn "error" msg none now)
                urn "error" msg now
          | _ =>
            -- truthy but not a dict: `.get` raises AttributeError, caught by
            -- the generic handler, resolved by the finally block.
            finallySafetyNet db urn "error" (some "Unexpected error: AttributeError") now
      | _ =>
        -- `raise ValueError` of line 1023 with error_message already set.
        finallySafetyNet db urn "error" (some "Unexpected data type from API.") now

/-! ## Alert configuration endpoint (`main.py` lines 1323-1354) -/

/-- Request body of `POST /api/admin/alerts` (pydantic `AlertConfig`). -/
structure AlertConfig where
  device_urn : String
  threshold_cpm : Int
  alert_email : Option String := none
  alert_sms : Option String := none
  alert_cooldown_minutes : Int := 60
  alert_enabled : Bool := false

/-- `POST /api/admin/alerts`: an `INSERT OR REPLACE` whose column list omits
`last_alert_sent`, so a replace resets it to NULL. -/
def set_alert_config (db : DB) (a : AlertConfig) : Except Nat DB :=
  if !deviceExists db a.device_urn then .error 404
  else .ok { db with alert_thresholds :=
    db.alert_thresholds.filter (fun r => r.device_urn != a.device_urn)
      ++ [{ device_urn := a.device_urn, threshold_cpm := a.threshold_cpm,
            alert_email := a.alert_email, alert_sms := a.alert_sms,
            alert_enabled := a.alert_enabled, last_alert_sent := none,
            alert_cooldown_minutes := a.alert_cooldown_minutes }] }

/-! ## The state-mutating operations of the application

Collected so that properties quantifying over "anything the server can do"
(such as: nothing but the restore endpoint shrinks `deleted_devices`) can be
stated.  Handlers that return an error roll back to the unchanged state. -/

inductive AdminOp where
  | opInit
  | opAdd (dc : DeviceCreate)
  | opRemove (urn : String) (now : Int)
  | opFetchEndpoint (now : Int)
  | opFetchStore (urn : String) (o : FetchOutcome) (now : Int)
  | opCheckAlerts (urn : String) (cpm : ℚ) (now : Int)
  | opSetAlert (a : AlertConfig)
  | opCleanup (cutoffIso : String)

def AdminOp.apply : AdminOp → DB → DB
  | .opInit, db => init_db db
  | .opAdd dc, db => (add_device db dc).toOption.getD db
  | .opRemove urn now, db => (remove_device db urn now).toOption.getD db
  | .opFetchEndpoint now, db => (fetch_device_data db now).1
  | .opFetchStore urn o now, db => fetch_and_store_device_data db urn o now
  | .opCheckAlerts urn cpm now, db => (check_and_trigger_alerts db urn cpm now).1
  | .opSetAlert a, db => (set_alert_config db a).toOption.getD db
  | .opCleanup c, db => cleanup_old_data db c

/-! ## The claim's reading of `GET /api/measurements/{device_urn}` -/

/-- Follows the words of the claim, not the code: exactly the stored
measurements of the device whose `when_captured` lies between the bounds,
ordered ascending.  Timestamps are compared chronologically; on the stored
ISO text this is the lexicographic order whenever the compared strings agree
in format or differ within the date part, which is the case at every input
this definition is applied to. -/
def specGetMeasurements (db : DB) (urn : String) (startIso endIso : String) :
    Except Nat (List MeasurementRow) :=
  if !deviceExists db urn then .error 404
  else
    .ok (orderByWhenAsc (db.measurements.filter (fun m =>
      m.device_urn == urn && strLe startIso m.when_captured
        && strLe m.when_captured endIso)))

/-! ## Derived properties of the embedded code -/

/-- The cooldown test of `check_and_trigger_alerts` in positive form: no
alert was ever sent, or at least `alert_cooldown_minutes` have elapsed. -/
def cooldownOk (cfg : AlertRow) (now : Int) : Prop :=
  match cfg.last_alert_sent with
  | none => True
  | some t => 60 * cfg.alert_cooldown_minutes ≤ now - t

/-- The claimed resolution invariant for a `device_fetch_status` row: the
status is one of the three terminal values, and an `error` status carries a
non-null message. -/
def resolvedRow (r : StatusRow) : Prop :=
  (r.fetch_status = "completed" ∨ r.fetch_status = "no_data" ∨ r.fetch_status = "error") ∧
  (r.fetch_status = "error" → r.error_message ≠ none)

/-- The `geiger_history` processing in isolation (the storage transaction
restricted to the history loop, with no database errors). -/
def insertHistory (db : DB) (urn : String) (entries : List JVal) : DB :=
  (historyLoop urn entries (fun _ => false) (db, 0)).1

/-! ## Concrete fixtures used by witnesses and counterexamples -/

def fxDevice : DeviceRow :=
  { device_urn := "geigiecast:63209", device_id := 63209, device_class := "GeigerCounter",
    dev_test := false, dev_dashboard := "dash" }

def fxMeasOld : MeasurementRow :=
  { device_urn := "geigiecast:63209", when_captured := "1995-01-01 00:00:00+00:00",
    lnd_7318u := 20 }

/-- Same unique key as `fxMeasOld`, different payload. -/
def fxMeasOldDup : MeasurementRow :=
  { device_urn := "geigiecast:63209", when_captured := "1995-01-01 00:00:00+00:00",
    lnd_7318u := 20, latitude := some 43 }

def fxDB1 : DB :=
  { devices := [fxDevice], measurements := [fxMeasOld], device_fetch_status := [],
    transport_info := [], alert_thresholds := [], deleted_devices := [] }

/-- A `(datetime.utcnow() - timedelta(days=30)).isoformat()` value. -/
def cleanupCutoffIso : String := "2026-09-12T00:00:00.000000"

def fxAlertNoContacts : AlertRow :=
  { device_urn := "geigiecast:63209", threshold_cpm := 100, alert_enabled := true }

def fxDB3 : DB :=
  { devices := [fxDevice], measurements := [], device_fetch_status := [],
    transport_info := [], alert_thresholds := [fxAlertNoContacts], deleted_devices := [] }

def fxAlertEmail : AlertRow :=
  { device_urn := "geigiecast:63209", threshold_cpm := 100,
    alert_email := some "ops@example.org", alert_enabled := true }

def fxDB3e : DB :=
  { devices := [fxDevice], measurements := [], device_fetch_status := [],
    transport_info := [], alert_thresholds := [fxAlertEmail], deleted_devices := [] }

def fxStatusPending : StatusRow :=
  { device_urn := "geigiecast:63209", fetch_status := "pending" }

def fxDB8 : DB :=
  { devices := [fxDevice], measurements := [], device_fetch_status := [fxStatusPending],
    transport_info := [], alert_thresholds := [], deleted_devices := [] }

/-- A history entry whose numeric reading is 0: well-formed per the claim
(`when_captured` parses, `lnd_7318u` parses as a number) but falsy in
Python's truthiness test, so the loop skips it. -/
def fxEntryZero : JVal :=
  .obj [("when_captured", .str "2025-05-17T02:59:17Z"), ("lnd_7318u", .num 0)]

def fxEntryGood : JVal :=
  .obj [("when_captured", .str "2025-05-17T03:59:17Z"), ("lnd_7318u", .num 21)]

/-- The row `fxEntryGood` is stored as. -/
def fxRowGood : MeasurementRow :=
  { device_urn := "geigiecast:63209", when_captured := "2025-05-17 03:59:17+00:00",
    lnd_7318u := 21 }

def fxDB6 : DB :=
  { devices := [fxDevice], measurements := [], device_fetch_status := [],
    transport_info := [], alert_thresholds := [], deleted_devices := [] }

def fxMeasA : MeasurementRow :=
  { device_urn := "geigiecast:63209", when_captured := "2026-10-10 00:00:00+00:00",
    lnd_7318u := 20 }

def fxMeasB : MeasurementRow :=
  { device_urn := "geigiecast:63209", when_captured := "2026-10-11 00:00:00+00:00",
    lnd_7318u := 21 }

def fxDB7 : DB :=
  { devices := [fxDevice], measurements := [fxMeasA, fxMeasB], device_fetch_status := [],
    transport_info := [], alert_thresholds := [], deleted_devices := [] }

/-- The parsed current values used by the C2 fixtures. -/
def fxCV2 : ParsedCV :=
  { lat := 43, lon := -79, reading := 22, lastSeenText := "2025-05-17 04:59:17+00:00" }

/-- Failure oracle: the write with index 2 (the first accepted history
entry's insert) raises a database error. -/
def failsAtTwo : Nat → Bool := fun i => i == 2

/-- The `device_fetch_status` row left by fetching `fxDB8`'s device with a
network `RequestError` at wall-clock 9. -/
def fxRow5 : StatusRow :=
  { device_urn := "geigiecast:63209", last_fetched := some 9, last_attempted := some 9,
    fetch_status := "error", error_message := some "Request error: ConnectError" }

def fxDB9 : DB :=
  { devices := [fxDevice], measurements := [], device_fetch_status := [fxStatusPending],
    transport_info := [], alert_thresholds := [], deleted_devices := [] }

/-- The state after `DELETE /api/admin/devices/geigiecast:63209` on `fxDB9`. -/
def fxDB9r : DB := (remove_device fxDB9 "geigiecast:63209" 7).toOption.getD fxDB9

/-! ## Generic lookup lemmas -/

theorem find?_update_alert (l : List AlertRow) (urn : String) (now : Int) :
    (l.map (fun r =>
        if r.device_urn == urn then { r with last_alert_sent := some now } else r)).find?
        (fun r => r.device_urn == urn)
      = (l.find? (fun r => r.device_urn == urn)).map
          (fun r => { r with last_alert_sent := some now }) := by
  induction l with
  | nil => rfl
  | cons a t ih =>
    simp only [List.map_cons]
    by_cases h : (a.device_urn == urn) = true
    · have hh : (({ a with last_alert_sent := some now } : AlertRow).device_urn == urn)
        = true := h
      rw [if_pos h]
      simp only [List.find?_cons, hh, h]
      rfl
    · rw [if_neg h]
      simp only [List.find?_cons, h, ih]

theorem alertLookup_recordAlertSent (db : DB) (urn : String) (now : Int) :
    alertLookup (recordAlertSent db urn now) urn =
      (alertLookup db urn).map (fun r => { r with last_alert_sent := some now }) :=
  find?_update_alert db.alert_thresholds urn now

theorem statusLookup_insertOrReplace_self (db : DB) (row : StatusRow) :
    statusLookup (insertOrReplaceStatus db row) row.device_urn = some row := by
  unfold statusLookup insertOrReplaceStatus
  simp only
  rw [List.find?_append]
  have h1 : (db.device_fetch_status.filter
      (fun r => r.device_urn != row.device_urn)).find?
        (fun r => r.device_urn == row.device_urn) = none := by
    rw [List.find?_eq_none]
    intro x hx
    simp only [List.mem_filter, bne_iff_ne, ne_eq] at hx
    simp [hx.2]
  rw [h1]
  simp [List.find?]

theorem filterne_find?_eq (t : List StatusRow) (w v : String) (h : v ≠ w) :
    (t.filter (fun r => r.device_urn != w)).find? (fun r => r.device_urn == v)
      = t.find? (fun r => r.device_urn == v) := by
  induction t with
  | nil => rfl
  | cons a t ih =>
    cases ha : a.device_urn == w with
    | true =>
      have ha' : a.device_urn = w := beq_iff_eq.mp ha
      have hav : (a.device_urn == v) = false := by
        refine beq_eq_false_iff_ne.mpr ?_
        rw [ha']
        exact fun hc => h hc.symm
      have hwv : (w == v) = false := beq_eq_false_iff_ne.mpr (Ne.symm h)
      simp [List.filter_cons, List.find?_cons, ha', hav, hwv, ih]
    | false =>
      have ha' : ¬ (a.device_urn = w) := by
        simpa using beq_eq_false_iff_ne.mp ha
      cases hav : a.device_urn == v <;>
        simp [List.filter_cons, List.find?_cons, ha', hav, ih]

theorem statusLookup_insertOrReplace_ne (db : DB) (row : StatusRow) (v : String)
    (h : v ≠ row.device_urn) :
    statusLookup (insertOrReplaceStatus db row) v = statusLookup db v := by
  unfold statusLookup insertOrReplaceStatus
  simp only
  rw [List.find?_append]
  have h2 : List.find? (fun r => r.device_urn == v) [row] = none := by
    simp [List.find?, beq_eq_false_iff_ne.mpr (Ne.symm h)]
  rw [h2, filterne_find?_eq db.device_fetch_status row.device_urn v h]
  simp

/-! ## C1: the measurements insert is idempotent on the unique key -/

/-- C1: for every database state and reading, if a row with the same
`(device_urn, when_captured, lnd_7318u)` is already present then the
`INSERT OR IGNORE` performed by `fetch_and_store_device_data` leaves the
`measurements` table unchanged; and the insert preserves key-uniqueness, so
no duplicate reading is ever stored. -/
theorem C1_insert_or_ignore_idempotent (db : DB) (row : MeasurementRow) :
    ((∃ m ∈ db.measurements, sameKey m row) → insertOrIgnoreMeasurement db row = db) ∧
    (db.measurements.Pairwise (fun a b => ¬ sameKey a b) →
      (insertOrIgnoreMeasurement db row).measurements.Pairwise (fun a b => ¬ sameKey a b)) := by
  constructor
  · rintro ⟨m, hm, hk⟩
    have hany : db.measurements.any (fun m => decide (sameKey m row)) = true :=
      List.any_eq_true.mpr ⟨m, hm, by simpa using hk⟩
    simp [insertOrIgnoreMeasurement, hany]
  · intro hnd
    unfold insertOrIgnoreMeasurement
    split
    · exact hnd
    · next h =>
      simp only [List.any_eq_true, decide_eq_true_eq, not_exists, not_and] at h
      rw [List.pairwise_append]
      refine ⟨hnd, by simp, ?_⟩
      intro a ha b hb
      simp only [List.mem_singleton] at hb
      subst hb
      exact h a ha

/-- Witness for C1 at a concrete database: a duplicate-keyed reading is
ignored and uniqueness is preserved. -/
theorem C1_witness :
    ((∃ m ∈ fxDB1.measurements, sameKey m fxMeasOldDup) ∧
      insertOrIgnoreMeasurement fxDB1 fxMeasOldDup = fxDB1) ∧
    (insertOrIgnoreMeasurement fxDB1 fxMeasOldDup).measurements.Pairwise
      (fun a b => ¬ sameKey a b) :=
  ⟨⟨by decide, (C1_insert_or_ignore_idempotent fxDB1 fxMeasOldDup).1 (by decide)⟩,
   (C1_insert_or_ignore_idempotent fxDB1 fxMeasOldDup).2 (by decide)⟩

/-! ## C10: cleanup_old_data never deletes anything -/

/-- C10: the claim says `cleanup_old_data` deletes exactly the measurements
older than the cutoff.  In fact the `WHERE when_captured <
CAST(? AS TIMESTAMP)` comparison pits stored TEXT against the INTEGER
numeric prefix of the cutoff, and TEXT sorts above every INTEGER, so a
measurement 30 years older than the cutoff survives and the database is
returned unchanged — contradicting the function's own docstring
("Remove measurement data older than MAX_DATA_DAYS"). -/
theorem C10_cleanup_deletes_nothing :
    fxMeasOld ∈ fxDB1.measurements ∧
    strLt fxMeasOld.when_captured cleanupCutoffIso = true ∧
    cleanup_old_data fxDB1 cleanupCutoffIso = fxDB1 := by decide

/-! ## C3: when alerts are dispatched -/

/-- C3 (amended): a notification is dispatched iff an `alert_thresholds`
row exists, `alert_enabled` is set, the CPM strictly exceeds the threshold,
the cooldown has expired (or no alert was ever sent), and — missing from
the original claim — at least one of `alert_email`/`alert_sms` is a
non-empty contact. -/
theorem C3_alert_dispatch_condition (db : DB) (urn : String) (cpm : ℚ) (now : Int) :
    (check_and_trigger_alerts db urn cpm now).2 ≠ [] ↔
      ∃ cfg, alertLookup db urn = some cfg ∧ cfg.alert_enabled = true ∧
        (cfg.threshold_cpm : ℚ) < cpm ∧ cooldownOk cfg now ∧
        (strTruthy cfg.alert_email = true ∨ strTruthy cfg.alert_sms = true) := by
  unfold check_and_trigger_alerts
  cases hcfg : alertLookup db urn with
  | none => simp [hcfg]
  | some cfg =>
    simp only [hcfg, Option.some.injEq]
    by_cases hen : cfg.alert_enabled
    · by_cases hth : cpm ≤ (cfg.threshold_cpm : ℚ)
      · simp only [hen, hth, Bool.not_true, if_true, if_false, ite_true, ite_false]
        simp
        intro _ hx
        exact absurd hx (not_lt.mpr hth)
      · have hth' : (cfg.threshold_cpm : ℚ) < cpm := not_le.mp hth
        cases hlast : cfg.last_alert_sent with
        | none =>
          simp only [hen, hth, hlast, Bool.not_true, ite_true, ite_false, if_neg, if_pos]
          by_cases he : strTruthy cfg.alert_email <;>
            by_cases hs : strTruthy cfg.alert_sms <;>
              simp [he, hs, hen, hth', cooldownOk, hlast]
        | some t =>
          by_cases hcd : now - t < 60 * cfg.alert_cooldown_minutes
          · simp only [hen, hth, hlast, hcd, decide_eq_true_eq, Bool.not_true,
              ite_true, ite_false]
            simp [hcd]
            intro _ _
            simp [cooldownOk, hlast]
            intro h
            exact absurd h (not_le.mpr hcd)
          · simp only [hen, hth, hlast, hcd, Bool.not_true, ite_true, ite_false]
            by_cases he : strTruthy cfg.alert_email <;>
              by_cases hs : strTruthy cfg.alert_sms <;>
                simp [he, hs, hen, hth', cooldownOk, hlast, hcd, not_lt.mp hcd]
    · simp only [Bool.not_eq_true] at hen
      simp [hen]

/-- Counterexample to C3 as stated: with an enabled row, an over-threshold
reading and no previous alert — all four of the claim's conditions — but no
contact configured, `check_and_trigger_alerts` dispatches nothing. -/
theorem C3_counterexample :
    alertLookup fxDB3 "geigiecast:63209" = some fxAlertNoContacts ∧
    fxAlertNoContacts.alert_enabled = true ∧
    ((fxAlertNoContacts.threshold_cpm : ℚ) < 200) ∧
    fxAlertNoContacts.last_alert_sent = none ∧
    (check_and_trigger_alerts fxDB3 "geigiecast:63209" 200 1000).2 = [] := by decide

/-- Witness for C3 (amended) at a concrete database with an email contact. -/
theorem C3_witness :
    (check_and_trigger_alerts fxDB3e "geigiecast:63209" 200 1000).2 ≠ [] :=
  (C3_alert_dispatch_condition fxDB3e "geigiecast:63209" 200 1000).mpr
    ⟨fxAlertEmail, by decide, by decide, by decide, by trivial, Or.inl (by decide)⟩

/-! ## C4: cooldown suppression -/

/-- C4: `last_alert_sent` is committed before dispatching, so after a
dispatch attempt at `t₁`, any over-threshold reading arriving at `t₂` less
than the cooldown later is suppressed: the second invocation changes nothing
and dispatches nothing. -/
theorem C4_cooldown_suppression (db : DB) (urn : String) (cpm₁ cpm₂ : ℚ) (t₁ t₂ : Int)
    (cfg : AlertRow)
    (hcfg : alertLookup db urn = some cfg)
    (hen : cfg.alert_enabled = true)
    (hth : (cfg.threshold_cpm : ℚ) < cpm₁)
    (hcd : cooldownOk cfg t₁)
    (hth2 : (cfg.threshold_cpm : ℚ) < cpm₂)
    (hwin : t₂ - t₁ < 60 * cfg.alert_cooldown_minutes) :
    check_and_trigger_alerts (check_and_trigger_alerts db urn cpm₁ t₁).1 urn cpm₂ t₂ =
      ((check_and_trigger_alerts db urn cpm₁ t₁).1, []) := by
  have hdb1 : (check_and_trigger_alerts db urn cpm₁ t₁).1 = recordAlertSent db urn t₁ := by
    unfold check_and_trigger_alerts
    simp only [hcfg, hen, Bool.not_true, Bool.false_eq_true, if_false]
    rw [if_neg (not_le.mpr hth)]
    cases hlast : cfg.last_alert_sent with
    | none => simp [hlast]
    | some t =>
      have hlt : ¬ (t₁ - t < 60 * cfg.alert_cooldown_minutes) := by
        have hge := hcd
        unfold cooldownOk at hge
        rw [hlast] at hge
        omega
      simp [hlast, hlt]
  have hlook : alertLookup (recordAlertSent db urn t₁) urn =
      some { cfg with last_alert_sent := some t₁ } := by
    rw [alertLookup_recordAlertSent, hcfg]; rfl
  rw [hdb1]
  unfold check_and_trigger_alerts
  simp only [hlook, hen, Bool.not_true, Bool.false_eq_true, if_false]
  rw [if_neg (not_le.mpr hth2)]
  simp [hwin]

/-- Witness for C4 at a concrete database: a second over-threshold reading
500 seconds after a dispatch (cooldown 60 minutes) is suppressed. -/
theorem C4_witness :
    check_and_trigger_alerts (check_and_trigger_alerts fxDB3e "geigiecast:63209" 200 1000).1
        "geigiecast:63209" 300 1500 =
      ((check_and_trigger_alerts fxDB3e "geigiecast:63209" 200 1000).1, []) :=
  C4_cooldown_suppression fxDB3e "geigiecast:63209" 200 300 1000 1500 fxAlertEmail
    (by decide) (by decide) (by decide) (by trivial) (by decide) (by decide)

/-! ## C8: one fetch task per configured-and-present device -/

theorem fetching_preserved (l : List String) (now : Int) (db : DB) (u : String)
    (h : ∃ row, statusLookup db u = some row ∧ row.fetch_status = "fetching" ∧
      row.error_message = none) :
    ∃ row, statusLookup
        (l.foldl (fun d v => insertOrReplaceStatus d (fetchingStatusRow v now)) db) u
        = some row ∧ row.fetch_status = "fetching" ∧ row.error_message = none := by
  induction l generalizing db with
  | nil => exact h
  | cons v t ih =>
    simp only [List.foldl_cons]
    apply ih
    by_cases hv : u = v
    · subst hv
      exact ⟨fetchingStatusRow u now, statusLookup_insertOrReplace_self db _, rfl, rfl⟩
    · rw [statusLookup_insertOrReplace_ne db (fetchingStatusRow v now) u hv]
      exact h

theorem fetching_set (l : List String) (now : Int) (db : DB) (u : String) (hu : u ∈ l) :
    ∃ row, statusLookup
        (l.foldl (fun d v => insertOrReplaceStatus d (fetchingStatusRow v now)) db) u
        = some row ∧ row.fetch_status = "fetching" ∧ row.error_message = none := by
  induction l generalizing db with
  | nil => cases hu
  | cons v t ih =>
    simp only [List.foldl_cons]
    by_cases hv : u ∈ t
    · exact ih (insertOrReplaceStatus db (fetchingStatusRow v now)) hv
    · have huv : u = v := by
        rcases List.mem_cons.mp hu with h | h
        · exact h
        · exact absurd h hv
      subst huv
      apply fetching_preserved
      exact ⟨fetchingStatusRow u now, statusLookup_insertOrReplace_self db _, rfl, rfl⟩

/-- C8: `/api/fetch-device-data` schedules exactly one background task for
each device both configured in `DEVICE_URNS` and present in `devices` (the
task list has exactly those members and no duplicates), and each scheduled
device's `device_fetch_status` row reads `fetching` with NULL error before
the tasks run. -/
theorem C8_fetch_schedule (db : DB) (now : Int) :
    (∀ u, u ∈ (fetch_device_data db now).2 ↔ u ∈ DEVICE_URNS ∧ deviceExists db u = true) ∧
    (fetch_device_data db now).2.Nodup ∧
    (∀ u ∈ (fetch_device_data db now).2,
      ∃ row, statusLookup (fetch_device_data db now).1 u = some row ∧
        row.fetch_status = "fetching" ∧ row.error_message = none) := by
  unfold fetch_device_data
  by_cases hemp : (DEVICE_URNS.filter (fun u => deviceExists db u)).isEmpty
  · simp only [hemp, ite_true]
    refine ⟨fun u => ?_, by simp, by simp⟩
    simp only [List.not_mem_nil, false_iff, not_and]
    intro h1 h2
    have hmem : u ∈ DEVICE_URNS.filter (fun u => deviceExists db u) :=
      List.mem_filter.mpr ⟨h1, h2⟩
    rw [List.isEmpty_iff] at hemp
    rw [hemp] at hmem
    cases hmem
  · simp only [hemp, ite_false]
    refine ⟨fun u => ?_, ?_, fun u hu => ?_⟩
    · exact List.mem_filter
    · exact List.Nodup.filter _ (by decide)
    · exact fetching_set _ now db u hu

/-- Witness for C8 at a concrete database holding one configured device. -/
theorem C8_witness :
    ∃ row, statusLookup (fetch_device_data fxDB8 5).1 "geigiecast:63209" = some row ∧
      row.fetch_status = "fetching" ∧ row.error_message = none :=
  (C8_fetch_schedule fxDB8 5).2.2 "geigiecast:63209" (by decide)

/-! ## C9: deleted devices stay deleted -/

theorem deleted_insertOrIgnoreMeasurement (db : DB) (row : MeasurementRow) :
    (insertOrIgnoreMeasurement db row).deleted_devices = db.deleted_devices := by
  unfold insertOrIgnoreMeasurement; split <;> rfl

theorem historyLoop_cons (urn : String) (e : JVal) (t : List JVal) (fails : Nat → Bool)
    (start : DB × Nat) :
    historyLoop urn (e :: t) fails start = historyLoop urn t fails
      (match historyAccepted urn e with
       | none => start
       | some row =>
         if fails start.2 then (start.1, start.2 + 1)
         else (insertOrIgnoreMeasurement start.1 row, start.2 + 1)) := rfl

theorem deleted_historyLoop (urn : String) (entries : List JVal) (fails : Nat → Bool)
    (start : DB × Nat) :
    (historyLoop urn entries fails start).1.deleted_devices = start.1.deleted_devices := by
  induction entries generalizing start with
  | nil => rfl
  | cons e t ih =>
    rw [historyLoop_cons]
    cases hacc : historyAccepted urn e with
    | none => simpa using ih start
    | some row =>
      by_cases hf : fails start.2
      · simp only [hacc]
        rw [if_pos hf]
        exact ih (start.1, start.2 + 1)
      · simp only [hacc]
        rw [if_neg hf, ih (insertOrIgnoreMeasurement start.1 row, start.2 + 1)]
        exact deleted_insertOrIgnoreMeasurement start.1 row

theorem deleted_fetchTxn (db : DB) (urn : String) (cv : ParsedCV) (entries : List JVal)
    (fails : Nat → Bool) :
    (fetchTxn db urn cv entries fails).db.deleted_devices = db.deleted_devices := by
  unfold fetchTxn
  split
  · rfl
  · split
    · rfl
    · simp only []
      by_cases hf : fails (historyLoop urn entries fails
          (insertOrIgnoreMeasurement (updateDeviceRow db urn cv)
            (currentMeasurementRow urn cv), 2)).2
      · rw [if_pos hf]
      · rw [if_neg hf]
        show (historyLoop urn entries fails
            (insertOrIgnoreMeasurement (updateDeviceRow db urn cv)
              (currentMeasurementRow urn cv), 2)).1.deleted_devices = db.deleted_devices
        rw [deleted_historyLoop, deleted_insertOrIgnoreMeasurement]
        rfl

theorem deleted_statusUpdateFetching (db : DB) (urn : String) (now : Int) :
    (statusUpdateFetching db urn now).deleted_devices = db.deleted_devices := rfl

theorem deleted_finalStatusUpdate (db : DB) (urn st : String) (err : Option String)
    (lm : Option String) (now : Int) :
    (finalStatusUpdate db urn st err lm now).deleted_devices = db.deleted_devices := rfl

theorem deleted_finallySafetyNet (db : DB) (urn st : String) (err : Option String)
    (now : Int) :
    (finallySafetyNet db urn st err now).deleted_devices = db.deleted_devices := by
  unfold finallySafetyNet
  split
  · split <;> rfl
  · rfl

theorem deleted_fetch_and_store (db : DB) (urn : String) (o : FetchOutcome) (now : Int) :
    (fetch_and_store_device_data db urn o now).deleted_devices = db.deleted_devices := by
  unfold fetch_and_store_device_data
  split
  · exact deleted_finallySafetyNet db urn "error" none now
  · cases o with
    | httpStatusError c =>
      rw [deleted_finallySafetyNet, deleted_statusUpdateFetching]
    | requestError n =>
      rw [deleted_finallySafetyNet, deleted_statusUpdateFetching]
    | jsonDecodeError =>
      rw [deleted_finallySafetyNet, deleted_statusUpdateFetching]
    | ok data fails =>
      cases data with
      | obj fs =>
        simp only
        split
        · rw [deleted_finallySafetyNet, deleted_finalStatusUpdate, deleted_statusUpdateFetching]
        · split
          · split
            · split
              · rw [deleted_finallySafetyNet, deleted_finalStatusUpdate,
                  deleted_statusUpdateFetching]
              · rw [deleted_finallySafetyNet, deleted_finalStatusUpdate,
                  deleted_statusUpdateFetching]
              · split
                · rw [deleted_finallySafetyNet, deleted_finalStatusUpdate, deleted_fetchTxn,
                    deleted_statusUpdateFetching]
                · rw [deleted_finallySafetyNet, deleted_finalStatusUpdate, deleted_fetchTxn,
                    deleted_statusUpdateFetching]
            · rw [deleted_finallySafetyNet, deleted_finalStatusUpdate,
                deleted_statusUpdateFetching]
          · rw [deleted_finallySafetyNet, deleted_statusUpdateFetching]
      | num q => rw [deleted_finallySafetyNet, deleted_statusUpdateFetching]
      | str s => rw [deleted_finallySafetyNet, deleted_statusUpdateFetching]
      | jbool b => rw [deleted_finallySafetyNet, deleted_statusUpdateFetching]
      | null => rw [deleted_finallySafetyNet, deleted_statusUpdateFetching]
      | arr es => rw [deleted_finallySafetyNet, deleted_statusUpdateFetching]

theorem deleted_insertOrIgnoreDevice (db : DB) (row : DeviceRow) :
    (insertOrIgnoreDevice db row).deleted_devices = db.deleted_devices := by
  unfold insertOrIgnoreDevice; split <;> rfl

theorem deleted_insertOrIgnoreStatus (db : DB) (row : StatusRow) :
    (insertOrIgnoreStatus db row).deleted_devices = db.deleted_devices := by
  unfold insertOrIgnoreStatus; split <;> rfl

theorem deleted_initStep (dels : List String) (d : DB) (urn : String) :
    (initStep dels d urn).deleted_devices = d.deleted_devices := by
  unfold initStep
  split
  · rfl
  · rw [deleted_insertOrIgnoreStatus, deleted_insertOrIgnoreDevice]

theorem deleted_init_foldl (l : List String) (dels : List String) (db : DB) :
    (l.foldl (initStep dels) db).deleted_devices = db.deleted_devices := by
  induction l generalizing db with
  | nil => rfl
  | cons v t ih =>
    simp only [List.foldl_cons]
    rw [ih (initStep dels db v), deleted_initStep]

theorem deleted_fetch_endpoint_foldl (l : List String) (now : Int) (db : DB) :
    ((l.foldl (fun d v => insertOrReplaceStatus d (fetchingStatusRow v now)) db)).deleted_devices
      = db.deleted_devices := by
  induction l generalizing db with
  | nil => rfl
  | cons v t ih =>
    simp only [List.foldl_cons]
    rw [ih]
    rfl

theorem deviceLookup_insertOrIgnoreStatus (d : DB) (row : StatusRow) (u : String) :
    deviceLookup (insertOrIgnoreStatus d row) u = deviceLookup d u := by
  unfold insertOrIgnoreStatus deviceLookup
  split <;> rfl

theorem deviceLookup_insertOrIgnore_none (d : DB) (row : DeviceRow) (u : String)
    (h : deviceLookup d u = none) (hne : row.device_urn ≠ u) :
    deviceLookup (insertOrIgnoreDevice d row) u = none := by
  unfold insertOrIgnoreDevice
  split
  · exact h
  · unfold deviceLookup at h ⊢
    simp only
    rw [List.find?_append, h]
    simp [List.find?, beq_eq_false_iff_ne.mpr hne]

theorem init_fold_no_revive (l dels : List String) (db : DB) (urn : String)
    (hdel : dels.contains urn = true)
    (hdev : deviceLookup db urn = none) :
    deviceLookup (l.foldl (initStep dels) db) urn = none := by
  induction l generalizing db with
  | nil => exact hdev
  | cons v t ih =>
    simp only [List.foldl_cons]
    apply ih
    unfold initStep
    by_cases hv : dels.contains v
    · rw [if_pos hv]; exact hdev
    · rw [if_neg hv]
      have hne : v ≠ urn := fun h => hv (h ▸ hdel)
      rw [deviceLookup_insertOrIgnoreStatus]
      exact deviceLookup_insertOrIgnore_none db _ urn hdev hne

theorem deletedUrns_mem_insertOrReplaceDeleted (db : DB) (w urn : String) (now : Int)
    (h : urn ∈ deletedUrns db) :
    urn ∈ deletedUrns (insertOrReplaceDeleted db w now) := by
  unfold deletedUrns at h ⊢
  unfold insertOrReplaceDeleted
  simp only [List.map_append, List.mem_append]
  by_cases huw : urn = w
  · right; simp [huw]
  · left
    rcases List.mem_map.mp h with ⟨r, hr, hru⟩
    refine List.mem_map.mpr ⟨r, List.mem_filter.mpr ⟨hr, ?_⟩, hru⟩
    simp only [bne_iff_ne, ne_eq]
    intro hc
    exact huw (hru ▸ hc ▸ rfl)

/-- C9: deleted devices stay deleted.  A successful
`DELETE /api/admin/devices/{urn}` leaves the URN recorded in
`deleted_devices` with its `devices` and `device_fetch_status` rows gone (all
in one transaction, modelled as one state change); `init_db` never re-adds a
configured URN that is in `deleted_devices`; and every mutating operation of
the application other than the restore endpoint preserves membership in
`deleted_devices`. -/
theorem C9_deleted_devices (db : DB) (urn : String) (now : Int) :
    (∀ dbr, remove_device db urn now = .ok dbr →
        urn ∈ deletedUrns dbr ∧ deviceLookup dbr urn = none ∧ statusLookup dbr urn = none) ∧
    (urn ∈ DEVICE_URNS → urn ∈ deletedUrns db → deviceLookup db urn = none →
        deviceLookup (init_db db) urn = none) ∧
    (∀ op : AdminOp, urn ∈ deletedUrns db → urn ∈ deletedUrns (op.apply db)) := by
  refine ⟨?_, ?_, ?_⟩
  · intro dbr hok
    unfold remove_device at hok
    split at hok
    · cases hok
    · next hex =>
      injection hok with hok
      subst hok
      refine ⟨?_, ?_, ?_⟩
      · unfold deletedUrns insertOrReplaceDeleted
        simp
      · unfold insertOrReplaceDeleted deviceLookup
        simp only
        rw [List.find?_eq_none]
        intro x hx
        simp only [List.mem_filter, bne_iff_ne, ne_eq] at hx
        simp [hx.2]
      · unfold insertOrReplaceDeleted statusLookup
        simp only
        rw [List.find?_eq_none]
        intro x hx
        simp only [List.mem_filter, bne_iff_ne, ne_eq] at hx
        simp [hx.2]
  · intro _ hdel hdev
    unfold init_db
    refine init_fold_no_revive DEVICE_URNS (deletedUrns db) db urn ?_ hdev
    exact List.contains_iff_exists_mem_beq.mpr ⟨urn, hdel, by simp⟩
  · intro op hmem
    cases op with
    | opInit =>
      show urn ∈ deletedUrns (init_db db)
      unfold deletedUrns init_db
      rw [deleted_init_foldl]
      exact hmem
    | opAdd dc =>
      show urn ∈ deletedUrns ((add_device db dc).toOption.getD db)
      unfold add_device
      split
      · exact hmem
      · unfold deletedUrns at hmem ⊢
        rw [show ((Except.ok (insertOrIgnoreStatus _ _) : Except Nat DB).toOption.getD db)
            = insertOrIgnoreStatus _ _ from rfl]
        rw [deleted_insertOrIgnoreStatus]
        exact hmem
    | opRemove w now2 =>
      show urn ∈ deletedUrns ((remove_device db w now2).toOption.getD db)
      unfold remove_device
      split
      · exact hmem
      · rw [show ((Except.ok (insertOrReplaceDeleted _ w now2) : Except Nat DB).toOption.getD db)
            = insertOrReplaceDeleted _ w now2 from rfl]
        apply deletedUrns_mem_insertOrReplaceDeleted
        exact hmem
    | opFetchEndpoint now2 =>
      show urn ∈ deletedUrns (fetch_device_data db now2).1
      simp only [fetch_device_data]
      split
      · exact hmem
      · unfold deletedUrns
        rw [deleted_fetch_endpoint_foldl]
        exact hmem
    | opFetchStore w o now2 =>
      show urn ∈ deletedUrns (fetch_and_store_device_data db w o now2)
      unfold deletedUrns
      rw [deleted_fetch_and_store]
      exact hmem
    | opCheckAlerts w cpm now2 =>
      show urn ∈ deletedUrns (check_and_trigger_alerts db w cpm now2).1
      unfold check_and_trigger_alerts
      cases alertLookup db w with
      | none => exact hmem
      | some cfg =>
        simp only
        split
        · exact hmem
        · split
          · exact hmem
          · split
            · exact hmem
            · exact hmem
    | opSetAlert a =>
      show urn ∈ deletedUrns ((set_alert_config db a).toOption.getD db)
      unfold set_alert_config
      split
      · exact hmem
      · exact hmem
    | opCleanup c =>
      show urn ∈ deletedUrns (cleanup_old_data db c)
      simp only [cleanup_old_data]
      split
      · exact hmem
      · exact hmem

/-- Witness for C9: removing the configured device records it in
`deleted_devices`, `init_db` does not re-add it, and a further operation
preserves the deletion record. -/
theorem C9_witness :
    ("geigiecast:63209" ∈ deletedUrns fxDB9r ∧
      deviceLookup fxDB9r "geigiecast:63209" = none ∧
      statusLookup fxDB9r "geigiecast:63209" = none) ∧
    deviceLookup (init_db fxDB9r) "geigiecast:63209" = none ∧
    "geigiecast:63209" ∈ deletedUrns ((AdminOp.opCleanup "2026-09-12T00:00:00").apply fxDB9r) :=
  ⟨(C9_deleted_devices fxDB9 "geigiecast:63209" 7).1 fxDB9r (by decide),
   (C9_deleted_devices fxDB9r "geigiecast:63209" 7).2.1 (by decide) (by decide) (by decide),
   (C9_deleted_devices fxDB9r "geigiecast:63209" 7).2.2
     (AdminOp.opCleanup "2026-09-12T00:00:00") (by decide)⟩

/-! ## C6: malformed history entries are skipped, the rest inserted -/

theorem historyLoop_nofail (urn : String) (entries : List JVal) (start : DB × Nat) :
    (historyLoop urn entries (fun _ => false) start).1
      = (entries.filterMap (historyAccepted urn)).foldl insertOrIgnoreMeasurement start.1 := by
  induction entries generalizing start with
  | nil => rfl
  | cons e t ih =>
    rw [historyLoop_cons]
    cases hacc : historyAccepted urn e with
    | none => simp only [hacc, List.filterMap_cons, ih]
    | some row =>
      simp only [hacc, List.filterMap_cons, if_false, Bool.false_eq_true]
      rw [ih (insertOrIgnoreMeasurement start.1 row, start.2 + 1)]
      rfl

theorem filterMap_filter_isSome (f : JVal → Option MeasurementRow) (l : List JVal) :
    l.filterMap f = (l.filter (fun e => (f e).isSome)).filterMap f := by
  induction l with
  | nil => rfl
  | cons e t ih =>
    cases hacc : f e with
    | none => simp [List.filterMap_cons, List.filter_cons, hacc, ih]
    | some row => simp [List.filterMap_cons, List.filter_cons, hacc, ih]

theorem keyPresent_insert_self (db : DB) (row : MeasurementRow) :
    ∃ m ∈ (insertOrIgnoreMeasurement db row).measurements, sameKey m row := by
  unfold insertOrIgnoreMeasurement
  split
  · next h =>
    rcases List.any_eq_true.mp h with ⟨m, hm, hk⟩
    exact ⟨m, hm, of_decide_eq_true hk⟩
  · exact ⟨row, by simp, rfl, rfl, rfl⟩

theorem keyPresent_insert_mono (db : DB) (other row : MeasurementRow)
    (h : ∃ m ∈ db.measurements, sameKey m row) :
    ∃ m ∈ (insertOrIgnoreMeasurement db other).measurements, sameKey m row := by
  rcases h with ⟨m, hm, hk⟩
  unfold insertOrIgnoreMeasurement
  split
  · exact ⟨m, hm, hk⟩
  · exact ⟨m, by simp [hm], hk⟩

theorem keyPresent_foldl_mono (rows : List MeasurementRow) (db : DB) (row : MeasurementRow)
    (h : ∃ m ∈ db.measurements, sameKey m row) :
    ∃ m ∈ (rows.foldl insertOrIgnoreMeasurement db).measurements, sameKey m row := by
  induction rows generalizing db with
  | nil => exact h
  | cons r t ih =>
    simp only [List.foldl_cons]
    exact ih (insertOrIgnoreMeasurement db r) (keyPresent_insert_mono db r row h)

theorem keyPresent_foldl_self (rows : List MeasurementRow) (db : DB) (row : MeasurementRow)
    (h : row ∈ rows) :
    ∃ m ∈ (rows.foldl insertOrIgnoreMeasurement db).measurements, sameKey m row := by
  induction rows generalizing db with
  | nil => cases h
  | cons r t ih =>
    simp only [List.foldl_cons]
    rcases List.mem_cons.mp h with hr | hr
    · subst hr
      exact keyPresent_foldl_mono t _ row (keyPresent_insert_self db row)
    · exact ih _ hr

/-- C6 (amended): the stored result of processing a `geiger_history` array
depends only on the entries the loop accepts (dicts with truthy
`when_captured` and `lnd_7318u` whose conversions and bindings succeed) —
malformed entries alongside them change nothing — and a reading with every
accepted entry's unique key is present afterwards.  The acceptance predicate
differs from the claim's: an entry whose numeric reading is 0 is falsy in
Python and skipped, and a non-numeric `loc_lat`/`loc_lon` also skips the
entry. -/
theorem C6_history_processing (db : DB) (urn : String) (entries : List JVal) :
    insertHistory db urn entries
      = insertHistory db urn (entries.filter (fun e => (historyAccepted urn e).isSome)) ∧
    (∀ e ∈ entries, ∀ row, historyAccepted urn e = some row →
      ∃ m ∈ (insertHistory db urn entries).measurements, sameKey m row) := by
  constructor
  · unfold insertHistory
    rw [historyLoop_nofail, historyLoop_nofail, ← filterMap_filter_isSome]
  · intro e he row hacc
    unfold insertHistory
    rw [historyLoop_nofail]
    exact keyPresent_foldl_self _ _ _ (List.mem_filterMap.mpr ⟨e, he, hacc⟩)

/-- Counterexample to C6 as stated: the entry `fxEntryZero` is well-formed in
the claim's sense (its `when_captured` parses as a timestamp and its
`lnd_7318u` parses as the number 0), yet processing it stores nothing. -/
theorem C6_counterexample :
    pyFromIso "2025-05-17T02:59:17Z" = some "2025-05-17 02:59:17+00:00" ∧
    pyFloat (.num 0) = .ok 0 ∧
    insertHistory fxDB6 "geigiecast:63209" [fxEntryZero] = fxDB6 ∧
    fxDB6.measurements = [] := by decide

/-- Witness for C6 (amended): an accepted entry's reading is stored. -/
theorem C6_witness :
    ∃ m ∈ (insertHistory fxDB6 "geigiecast:63209" [fxEntryGood]).measurements,
      sameKey m fxRowGood :=
  (C6_history_processing fxDB6 "geigiecast:63209" [fxEntryGood]).2 fxEntryGood
    (List.mem_singleton.mpr rfl) fxRowGood (by decide)

/-! ## C7: the measurements endpoint ignores the requested range -/

theorem castTimestamp_int (s : String) : ∃ i, castTimestamp s = .int i := by
  unfold castTimestamp
  split
  · exact ⟨_, rfl⟩
  · exact ⟨_, rfl⟩

theorem svalLe_text_castTimestamp (w s : String) :
    svalLe (.text w) (castTimestamp s) = false := by
  rcases castTimestamp_int s with ⟨i, hi⟩
  rw [hi]
  rfl

theorem range_filter_empty (db : DB) (urn s e : String) :
    db.measurements.filter (fun m => m.device_urn == urn &&
      svalLe (castTimestamp s) (.text m.when_captured) &&
      svalLe (.text m.when_captured) (castTimestamp e)) = [] := by
  rw [List.filter_eq_nil_iff]
  intro m _
  simp [svalLe_text_castTimestamp]

theorem charListLt_asymm (a b : List Char) (h1 : charListLt a b = true) :
    charListLt b a = false := by
  induction a generalizing b with
  | nil =>
    cases b with
    | nil => cases h1
    | cons y ys => rfl
  | cons x xs ih =>
    cases b with
    | nil => cases h1
    | cons y ys =>
      unfold charListLt at h1 ⊢
      by_cases hxy : x < y
      · rw [if_neg (fun hc => absurd hxy (lt_asymm hc)), if_pos hxy]
      · by_cases hyx : y < x
        · rw [if_neg hxy, if_pos hyx] at h1
          cases h1
        · rw [if_neg hxy, if_neg hyx] at h1
          rw [if_neg hyx, if_neg hxy]
          exact ih ys h1

theorem strLe_total (a b : String) : strLe a b = true ∨ strLe b a = true := by
  unfold strLe strLt
  by_cases h1 : charListLt b.toList a.toList = true
  · right
    rw [charListLt_asymm _ _ h1]
    rfl
  · left
    rw [Bool.not_eq_true] at h1
    rw [h1]
    rfl

theorem head?_sortedInsertBy (le : α → α → Bool) (x : α) (l : List α) :
    (sortedInsertBy le x l).head? = some x ∨ (sortedInsertBy le x l).head? = l.head? := by
  cases l with
  | nil => left; rfl
  | cons a t =>
    unfold sortedInsertBy
    by_cases hle : le x a
    · rw [if_pos hle]; left; rfl
    · rw [if_neg hle]; right; rfl

theorem chain'_sortedInsertBy (le : α → α → Bool)
    (total : ∀ a b, le a b = true ∨ le b a = true) (x : α) (l : List α)
    (h : l.Chain' (fun a b => le a b = true)) :
    (sortedInsertBy le x l).Chain' (fun a b => le a b = true) := by
  induction l with
  | nil => exact List.chain'_singleton x
  | cons a t ih =>
    unfold sortedInsertBy
    by_cases hle : le x a
    · rw [if_pos hle]
      exact List.chain'_cons'.mpr ⟨fun y hy => by simp at hy; rw [← hy]; exact hle, h⟩
    · rw [if_neg hle]
      have hax : le a x = true := by
        rcases total x a with ht | ht
        · exact absurd ht hle
        · exact ht
      refine List.chain'_cons'.mpr ⟨?_, ih h.tail⟩
      intro y hy
      rcases head?_sortedInsertBy le x t with hh | hh
      · rw [hh] at hy
        simp at hy
        rw [← hy]
        exact hax
      · rw [hh] at hy
        exact (List.chain'_cons'.mp h).1 y hy

theorem chain'_insertionSortBy (le : α → α → Bool)
    (total : ∀ a b, le a b = true ∨ le b a = true) (l : List α) :
    (insertionSortBy le l).Chain' (fun a b => le a b = true) := by
  induction l with
  | nil => exact List.chain'_nil
  | cons a t ih => exact chain'_sortedInsertBy le total a _ ih

theorem mem_sortedInsertBy (le : α → α → Bool) (x y : α) (l : List α) :
    y ∈ sortedInsertBy le x l ↔ y = x ∨ y ∈ l := by
  induction l with
  | nil => simp [sortedInsertBy]
  | cons a t ih =>
    unfold sortedInsertBy
    by_cases hle : le x a
    · rw [if_pos hle]
      simp [List.mem_cons]
    · rw [if_neg hle]
      simp [List.mem_cons, ih]
      tauto

theorem mem_insertionSortBy (le : α → α → Bool) (l : List α) (y : α) :
    y ∈ insertionSortBy le l ↔ y ∈ l := by
  induction l with
  | nil => simp [insertionSortBy]
  | cons a t ih =>
    show y ∈ sortedInsertBy le a (insertionSortBy le t) ↔ _
    rw [mem_sortedInsertBy]
    simp [List.mem_cons, ih]

theorem get_measurements_eq (db : DB) (urn s e : String) :
    get_measurements db urn s e =
      if deviceExists db urn then
        .ok ((orderByWhenDesc (db.measurements.filter (fun m => m.device_urn == urn))).take 10)
      else .error 404 := by
  unfold get_measurements
  by_cases hdev : deviceExists db urn
  · rw [if_pos hdev]
    rw [show (!deviceExists db urn) = false from by rw [hdev]; rfl]
    simp only [Bool.false_eq_true, if_false]
    rw [range_filter_empty]
    rfl
  · rw [if_neg hdev]
    rw [Bool.not_eq_true] at hdev
    rw [show (!deviceExists db urn) = true from by rw [hdev]; rfl]
    rfl

/-- C7 (amended): `GET /api/measurements/{device_urn}` returns 404 exactly
for devices missing from `devices`; for present devices the result does not
depend on the requested date range at all (the BETWEEN comparison against
`CAST(? AS TIMESTAMP)` never matches a stored TEXT timestamp) and is the
up-to-10 most recent measurements of the device, in descending order of
`when_captured`. -/
theorem C7_measurements_behavior (db : DB) (urn : String) (s1 e1 s2 e2 : String) :
    (get_measurements db urn s1 e1 = .error 404 ↔ deviceExists db urn = false) ∧
    get_measurements db urn s1 e1 = get_measurements db urn s2 e2 ∧
    (deviceExists db urn = true →
      ∃ l, get_measurements db urn s1 e1 = .ok l ∧ l.length ≤ 10 ∧
        (∀ m ∈ l, m ∈ db.measurements ∧ m.device_urn = urn) ∧
        l.Chain' (fun a b => strLe b.when_captured a.when_captured = true)) := by
  refine ⟨?_, ?_, ?_⟩
  · rw [get_measurements_eq]
    by_cases hdev : deviceExists db urn
    · simp [hdev]
    · simp [hdev]
  · rw [get_measurements_eq, get_measurements_eq]
  · intro hdev
    rw [get_measurements_eq, if_pos hdev]
    refine ⟨_, rfl, ?_, ?_, ?_⟩
    · exact List.length_take_le 10 _
    · intro m hm
      have hm2 := List.mem_of_mem_take hm
      unfold orderByWhenDesc at hm2
      rw [mem_insertionSortBy] at hm2
      have := List.mem_filter.mp hm2
      exact ⟨this.1, by simpa using this.2⟩
    · apply List.Chain'.take
      unfold orderByWhenDesc
      apply chain'_insertionSortBy
      intro a b
      show svalLe (.text b.when_captured) (.text a.when_captured) = true ∨
        svalLe (.text a.when_captured) (.text b.when_captured) = true
      rcases strLe_total b.when_captured a.when_captured with h | h
      · left; exact h
      · right; exact h

/-- Counterexample to C7 as stated: for a device with two readings inside
the requested window, the claim's reading of the endpoint
(`specGetMeasurements`) returns them ascending, while the code returns them
through the fallback query in descending order (the range query never
matches), so the results differ. -/
theorem C7_counterexample :
    specGetMeasurements fxDB7 "geigiecast:63209" "2026-10-05T00:00:00" "2026-10-12T00:00:00"
      = .ok [fxMeasA, fxMeasB] ∧
    get_measurements fxDB7 "geigiecast:63209" "2026-10-05T00:00:00" "2026-10-12T00:00:00"
      = .ok [fxMeasB, fxMeasA] ∧
    get_measurements fxDB7 "geigiecast:63209" "2026-10-05T00:00:00" "2026-10-12T00:00:00"
      ≠ specGetMeasurements fxDB7 "geigiecast:63209" "2026-10-05T00:00:00"
          "2026-10-12T00:00:00" := by decide

/-- Witness for C7 (amended) at a concrete database. -/
theorem C7_witness :
    ∃ l, get_measurements fxDB7 "geigiecast:63209" "2026-10-05T00:00:00" "2026-10-12T00:00:00"
        = .ok l ∧ l.length ≤ 10 ∧
      (∀ m ∈ l, m ∈ fxDB7.measurements ∧ m.device_urn = "geigiecast:63209") ∧
      l.Chain' (fun a b => strLe b.when_captured a.when_captured = true) :=
  (C7_measurements_behavior fxDB7 "geigiecast:63209" "2026-10-05T00:00:00"
    "2026-10-12T00:00:00" "2020-01-01T00:00:00" "2020-01-02T00:00:00").2.2 (by decide)

/-! ## C2: transactionality of the per-fetch writes -/

theorem historyLoop_sublist (urn : String) (entries : List JVal) (fails : Nat → Bool)
    (db : DB) (i0 : Nat) :
    ∃ rows, rows.Sublist (entries.filterMap (historyAccepted urn)) ∧
      (historyLoop urn entries fails (db, i0)).1 = rows.foldl insertOrIgnoreMeasurement db ∧
      ((∀ i, fails i = false) → rows = entries.filterMap (historyAccepted urn)) := by
  induction entries generalizing db i0 with
  | nil => exact ⟨[], List.nil_sublist _, rfl, fun _ => rfl⟩
  | cons e t ih =>
    rw [historyLoop_cons]
    cases hacc : historyAccepted urn e with
    | none =>
      simp only [hacc]
      rcases ih db i0 with ⟨rows, hsub, heq, hall⟩
      refine ⟨rows, ?_, heq, ?_⟩
      · simpa [List.filterMap_cons, hacc] using hsub
      · intro hf
        simp [List.filterMap_cons, hacc, hall hf]
    | some row =>
      by_cases hf : fails i0
      · simp only [hacc]
        rw [show (if fails (db, i0).2 = true then ((db, i0).1, (db, i0).2 + 1)
            else (insertOrIgnoreMeasurement (db, i0).1 row, (db, i0).2 + 1))
            = (db, i0 + 1) from by rw [if_pos hf]]
        rcases ih db (i0 + 1) with ⟨rows, hsub, heq, hall⟩
        refine ⟨rows, ?_, heq, ?_⟩
        · simp only [List.filterMap_cons, hacc]
          exact hsub.cons row
        · intro hforall
          exact absurd (hforall i0) (by simp [hf])
      · simp only [hacc]
        rw [show (if fails (db, i0).2 = true then ((db, i0).1, (db, i0).2 + 1)
            else (insertOrIgnoreMeasurement (db, i0).1 row, (db, i0).2 + 1))
            = (insertOrIgnoreMeasurement db row, i0 + 1) from by rw [if_neg hf]]
        rcases ih (insertOrIgnoreMeasurement db row) (i0 + 1) with ⟨rows, hsub, heq, hall⟩
        refine ⟨row :: rows, ?_, ?_, ?_⟩
        · simp only [List.filterMap_cons, hacc]
          exact hsub.cons₂ row
        · rw [List.foldl_cons]
          exact heq
        · intro hforall
          simp only [List.filterMap_cons, hacc]
          rw [hall hforall]

/-- C2 (amended): the storage transaction is atomic except for individual
history-entry inserts.  If the transaction does not commit (a database error
on the devices UPDATE, on the current reading's insert, or at commit), the
state is unchanged.  If it commits, the devices update, the current
reading's insert, and the inserts of a sublist of the accepted history
entries become visible together; when no database error occurs at all, that
sublist is all of them.  A database error on one history-entry insert is
caught by the loop and only skips that entry — the rest still commits,
which is what refutes the claim as stated. -/
theorem C2_transactionality (db : DB) (urn : String) (cv : ParsedCV) (entries : List JVal)
    (fails : Nat → Bool) :
    ((fetchTxn db urn cv entries fails).committed = false →
      (fetchTxn db urn cv entries fails).db = db) ∧
    (∃ rows, rows.Sublist (entries.filterMap (historyAccepted urn)) ∧
      ((fetchTxn db urn cv entries fails).committed = true →
        (fetchTxn db urn cv entries fails).db
          = rows.foldl insertOrIgnoreMeasurement
              (insertOrIgnoreMeasurement (updateDeviceRow db urn cv)
                (currentMeasurementRow urn cv))) ∧
      ((∀ i, fails i = false) →
        (fetchTxn db urn cv entries fails).committed = true ∧
        rows = entries.filterMap (historyAccepted urn))) := by
  unfold fetchTxn
  by_cases h0 : fails 0
  · rw [if_pos h0]
    refine ⟨fun _ => rfl, [], List.nil_sublist _, ?_, ?_⟩
    · intro hcm
      simp at hcm
    · intro hforall
      have hx := hforall 0
      rw [h0] at hx
      cases hx
  · rw [if_neg h0]
    simp only []
    by_cases h1 : fails 1
    · rw [if_pos h1]
      refine ⟨fun _ => rfl, [], List.nil_sublist _, ?_, ?_⟩
      · intro hcm
        simp at hcm
      · intro hforall
        have hx := hforall 1
        rw [h1] at hx
        cases hx
    · rw [if_neg h1]
      rcases historyLoop_sublist urn entries fails
          (insertOrIgnoreMeasurement (updateDeviceRow db urn cv)
            (currentMeasurementRow urn cv)) 2 with ⟨rows, hsub, heq, hall⟩
      by_cases hc : fails (historyLoop urn entries fails
          (insertOrIgnoreMeasurement (updateDeviceRow db urn cv)
            (currentMeasurementRow urn cv), 2)).2
      · rw [if_pos hc]
        refine ⟨fun _ => rfl, rows, hsub, ?_, ?_⟩
        · intro hcm
          simp at hcm
        · intro hforall
          have hx := hforall (historyLoop urn entries fails
            (insertOrIgnoreMeasurement (updateDeviceRow db urn cv)
              (currentMeasurementRow urn cv), 2)).2
          rw [hc] at hx
          cases hx
      · rw [if_neg hc]
        refine ⟨?_, rows, hsub, ?_, ?_⟩
        · intro hcm
          simp at hcm
        · intro _
          exact heq
        · intro hforall
          exact ⟨rfl, hall hforall⟩

/-- Counterexample to C2 as stated: with a database error on the history
insert (write index 2), the transaction still commits and the fetch's writes
to `devices` and `measurements` persist, so the state is not unchanged. -/
theorem C2_counterexample :
    failsAtTwo 2 = true ∧
    (fetchTxn fxDB6 "geigiecast:63209" fxCV2 [fxEntryGood] failsAtTwo).committed = true ∧
    (fetchTxn fxDB6 "geigiecast:63209" fxCV2 [fxEntryGood] failsAtTwo).db.devices
      ≠ fxDB6.devices ∧
    (fetchTxn fxDB6 "geigiecast:63209" fxCV2 [fxEntryGood] failsAtTwo).db.measurements
      ≠ fxDB6.measurements := by decide

/-- Witness for C2 (amended): with no database errors the transaction
commits and equals the batch application of all writes. -/
theorem C2_witness :
    (fetchTxn fxDB6 "geigiecast:63209" fxCV2 [fxEntryGood] (fun _ => false)).committed = true ∧
    (fetchTxn fxDB6 "geigiecast:63209" fxCV2 [fxEntryGood] (fun _ => false)).db
      = [fxRowGood].foldl insertOrIgnoreMeasurement
          (insertOrIgnoreMeasurement (updateDeviceRow fxDB6 "geigiecast:63209" fxCV2)
            (currentMeasurementRow "geigiecast:63209" fxCV2)) := by
  obtain ⟨h1, rows, hsub, hceq, hnf⟩ :=
    C2_transactionality fxDB6 "geigiecast:63209" fxCV2 [fxEntryGood] (fun _ => false)
  have hnf2 := hnf (fun i => rfl)
  refine ⟨hnf2.1, ?_⟩
  rw [hceq hnf2.1, hnf2.2]
  rfl

/-! ## C5: fetch status is always resolved -/

theorem find?_update_status (l : List StatusRow) (urn : String) (f : StatusRow → StatusRow)
    (hf : ∀ r, (f r).device_urn = r.device_urn) :
    (l.map (fun r => if r.device_urn == urn then f r else r)).find?
        (fun r => r.device_urn == urn)
      = (l.find? (fun r => r.device_urn == urn)).map f := by
  induction l with
  | nil => rfl
  | cons a t ih =>
    simp only [List.map_cons]
    by_cases h : (a.device_urn == urn) = true
    · have hh : ((f a).device_urn == urn) = true := by
        rw [beq_iff_eq, hf a, ← beq_iff_eq]
        exact h
      rw [if_pos h]
      simp only [List.find?_cons, hh, h]
      rfl
    · rw [if_neg h]
      simp only [List.find?_cons, h, ih]

theorem statusLookup_statusUpdateFetching (db : DB) (urn : String) (now : Int) :
    statusLookup (statusUpdateFetching db urn now) urn =
      (statusLookup db urn).map (fun r =>
        { r with fetch_status := "fetching", last_attempted := some now,
                 error_message := none }) :=
  find?_update_status db.device_fetch_status urn _ (fun _ => rfl)

theorem statusLookup_finalStatusUpdate (db : DB) (urn st : String) (err : Option String)
    (lm : Option String) (now : Int) :
    statusLookup (finalStatusUpdate db urn st err lm now) urn =
      (statusLookup db urn).map (fun r =>
        { r with fetch_status := st, last_fetched := some now, error_message := err,
                 last_measurement_time := if lm.isSome then lm else r.last_measurement_time }) :=
  find?_update_status db.device_fetch_status urn _ (fun _ => rfl)

theorem statusLookup_finallySafetyNet (db : DB) (urn st : String) (err : Option String)
    (now : Int) :
    statusLookup (finallySafetyNet db urn st err now) urn =
      match statusLookup db urn with
      | none => none
      | some r =>
        if r.fetch_status == "fetching" then
          some { r with fetch_status := st, last_fetched := some now,
                        error_message := some (orInterrupted err) }
        else some r := by
  unfold finallySafetyNet
  cases hl : statusLookup db urn with
  | none => simp only [hl]
  | some r =>
    simp only [hl]
    by_cases hf : (r.fetch_status == "fetching") = true
    · rw [if_pos hf, if_pos hf, statusLookup_finalStatusUpdate, hl]
      rfl
    · rw [if_neg hf, if_neg hf]
      exact hl

theorem fetchTxn_errMsg (db : DB) (urn : String) (cv : ParsedCV) (entries : List JVal)
    (fails : Nat → Bool)
    (h : (fetchTxn db urn cv entries fails).committed = false) :
    (fetchTxn db urn cv entries fails).errMsg = some "DB update error" := by
  unfold fetchTxn at h ⊢
  by_cases h0 : fails 0
  · rw [if_pos h0]
  · rw [if_neg h0] at h ⊢
    simp only [] at h ⊢
    by_cases h1 : fails 1
    · rw [if_pos h1]
    · rw [if_neg h1] at h ⊢
      by_cases hc : fails (historyLoop urn entries fails
          (insertOrIgnoreMeasurement (updateDeviceRow db urn cv)
            (currentMeasurementRow urn cv), 2)).2
      · rw [if_pos hc]
      · rw [if_neg hc] at h
        simp at h

theorem resolved_after_net (db : DB) (urn st : String) (err : Option String) (now : Int)
    (hst : st = "completed" ∨ st = "no_data" ∨ st = "error")
    (hbase : ∀ r, statusLookup db urn = some r →
      r.fetch_status = "fetching" ∨ resolvedRow r) :
    ∀ r, statusLookup (finallySafetyNet db urn st err now) urn = some r →
      resolvedRow r := by
  intro r hr
  rw [statusLookup_finallySafetyNet] at hr
  cases hl : statusLookup db urn with
  | none =>
    rw [hl] at hr
    cases hr
  | some r0 =>
    rw [hl] at hr
    simp only [] at hr
    by_cases hf : (r0.fetch_status == "fetching") = true
    · rw [if_pos hf] at hr
      injection hr with hr
      subst hr
      exact ⟨hst, fun _ => by simp⟩
    · rw [if_neg hf] at hr
      injection hr with hr
      subst hr
      rcases hbase r0 hl with hfetch | hres
      · exact absurd (beq_iff_eq.mpr hfetch) hf
      · exact hres

theorem base_after_final (db : DB) (urn st : String) (err lm : Option String) (now : Int)
    (hst : st = "completed" ∨ st = "no_data" ∨ st = "error")
    (herr : st = "error" → err ≠ none) :
    ∀ r, statusLookup (finalStatusUpdate db urn st err lm now) urn = some r →
      r.fetch_status = "fetching" ∨ resolvedRow r := by
  intro r hr
  rw [statusLookup_finalStatusUpdate] at hr
  cases hl : statusLookup db urn with
  | none =>
    rw [hl] at hr
    cases hr
  | some r0 =>
    rw [hl] at hr
    injection hr with hr
    subst hr
    right
    exact ⟨hst, fun he => herr he⟩

theorem base_after_fetching (db : DB) (urn : String) (now : Int) :
    ∀ r, statusLookup (statusUpdateFetching db urn now) urn = some r →
      r.fetch_status = "fetching" ∨ resolvedRow r := by
  intro r hr
  rw [statusLookup_statusUpdateFetching] at hr
  cases hl : statusLookup db urn with
  | none =>
    rw [hl] at hr
    cases hr
  | some r0 =>
    rw [hl] at hr
    injection hr with hr
    subst hr
    left
    rfl

/-- C5: per-device fetch state is always resolved.  Started from a state
where the device exists (the endpoint precondition) or its status row reads
`fetching`, every invocation of `fetch_and_store_device_data` leaves the
device's `device_fetch_status` row (when one exists) with `fetch_status` in
completed/no_data/error — never `fetching` — and an `error` status always
carries a non-null `error_message`. -/
theorem C5_fetch_status_resolved (db : DB) (urn : String) (o : FetchOutcome) (now : Int)
    (h : deviceExists db urn = true ∨
      ∃ r0, statusLookup db urn = some r0 ∧ r0.fetch_status = "fetching") :
    ∀ r, statusLookup (fetch_and_store_device_data db urn o now) urn = some r →
      resolvedRow r := by
  unfold fetch_and_store_device_data
  by_cases hdev : deviceExists db urn
  · rw [if_neg (show ¬ ((!deviceExists db urn) = true) from by simp [hdev])]
    simp only []
    cases o with
    | httpStatusError c =>
      exact resolved_after_net _ urn "error" _ now (by simp) (base_after_fetching db urn now)
    | requestError n =>
      exact resolved_after_net _ urn "error" _ now (by simp) (base_after_fetching db urn now)
    | jsonDecodeError =>
      exact resolved_after_net _ urn "error" _ now (by simp) (base_after_fetching db urn now)
    | ok data fails =>
      cases data with
      | num q =>
        exact resolved_after_net _ urn "error" _ now (by simp) (base_after_fetching db urn now)
      | str s =>
        exact resolved_after_net _ urn "error" _ now (by simp) (base_after_fetching db urn now)
      | jbool b =>
        exact resolved_after_net _ urn "error" _ now (by simp) (base_after_fetching db urn now)
      | null =>
        exact resolved_after_net _ urn "error" _ now (by simp) (base_after_fetching db urn now)
      | arr es =>
        exact resolved_after_net _ urn "error" _ now (by simp) (base_after_fetching db urn now)
      | obj fs =>
        simp only []
        by_cases hcv : (!truthyO (pyGet (JVal.obj fs) "current_values")) = true
        · rw [if_pos hcv]
          exact resolved_after_net _ urn "no_data" _ now (by simp)
            (base_after_final _ urn "no_data" _ _ now (by simp)
              (fun hh => absurd hh (by decide)))
        · rw [if_neg hcv]
          cases hget : pyGet (JVal.obj fs) "current_values" with
          | none =>
            simp only [hget]
            exact resolved_after_net _ urn "error" _ now (by simp)
              (base_after_fetching db urn now)
          | some cvv =>
            cases cvv with
            | obj cvf =>
              simp only [hget]
              by_cases hpres : (((pyGet (JVal.obj cvf) "loc_lat").isSome &&
                  (pyGet (JVal.obj cvf) "loc_lon").isSome &&
                  (pyGet (JVal.obj cvf) "lnd_7318u").isSome &&
                  truthyO (pyGet (JVal.obj cvf) "when_captured")) = true)
              · rw [if_pos hpres]
                cases hconv : convertCV (JVal.obj cvf) (pyGet (JVal.obj cvf) "loc_lat")
                    (pyGet (JVal.obj cvf) "loc_lon") (pyGet (JVal.obj cvf) "lnd_7318u")
                    (pyGet (JVal.obj cvf) "when_captured") with
                | error ce =>
                  cases ce with
                  | valueError =>
                    simp only [hconv]
                    exact resolved_after_net _ urn "error" _ now (by simp)
                      (base_after_final _ urn "error" _ _ now (by simp) (fun _ => by simp))
                  | typeError =>
                    simp only [hconv]
                    exact resolved_after_net _ urn "error" _ now (by simp)
                      (base_after_final _ urn "error" _ _ now (by simp) (fun _ => by simp))
                | ok cv =>
                  simp only [hconv]
                  by_cases hcm : (fetchTxn (statusUpdateFetching db urn now) urn cv
                      (historyEntriesOf (JVal.obj fs)) fails).committed = true
                  · rw [if_pos hcm]
                    exact resolved_after_net _ urn "completed" _ now (by simp)
                      (base_after_final _ urn "completed" _ _ now (by simp)
                        (fun hh => absurd hh (by decide)))
                  · rw [if_neg hcm]
                    refine resolved_after_net _ urn "error" _ now (by simp)
                      (base_after_final _ urn "error" _ _ now (by simp) (fun _ => ?_))
                    rw [fetchTxn_errMsg _ _ _ _ _ (Bool.not_eq_true _ |>.mp hcm)]
                    simp
              · rw [if_neg hpres]
                exact resolved_after_net _ urn "error" _ now (by simp)
                  (base_after_final _ urn "error" _ _ now (by simp) (fun _ => by simp))
            | num q =>
              simp only [hget]
              exact resolved_after_net _ urn "error" _ now (by simp)
                (base_after_fetching db urn now)
            | str s =>
              simp only [hget]
              exact resolved_after_net _ urn "error" _ now (by simp)
                (base_after_fetching db urn now)
            | jbool b =>
              simp only [hget]
              exact resolved_after_net _ urn "error" _ now (by simp)
                (base_after_fetching db urn now)
            | null =>
              simp only [hget]
              exact resolved_after_net _ urn "error" _ now (by simp)
                (base_after_fetching db urn now)
            | arr es =>
              simp only [hget]
              exact resolved_after_net _ urn "error" _ now (by simp)
                (base_after_fetching db urn now)
  · have hdev' : deviceExists db urn = false := Bool.not_eq_true _ |>.mp hdev
    rw [if_pos (show (!deviceExists db urn) = true from by rw [hdev']; rfl)]
    rcases h with hdev2 | ⟨r0, hl0, hfetch⟩
    · exact absurd hdev2 hdev
    · refine resolved_after_net db urn "error" none now (by simp) ?_
      intro r hr
      rw [hl0] at hr
      injection hr with hr
      subst hr
      left
      exact hfetch

/-- Witness for C5: a request error on a concrete database resolves the row
to `error` with a message. -/
theorem C5_witness : resolvedRow fxRow5 :=
  C5_fetch_status_resolved fxDB8 "geigiecast:63209" (.requestError "ConnectError") 9
    (Or.inl (by decide)) fxRow5 (by decide)

end RadMap
